import Mathlib

/-!
Verification of the 3D CTU + CT MHD integrator (`integrate_3d_ctu.c`).

All arrays are modelled as total functions on integer triples indexed
`[k][j][i]`, exactly as in the C source.  The C `Real` (double) values are
modelled in exact arithmetic over an arbitrary linear ordered field `K`
(the specification states its claims about the exact formulas); witnesses
instantiate `K := ℚ` so that everything evaluates.
-/

namespace AthenaCTU

variable {K : Type} [LinearOrderedField K]

/-- A 3D array indexed `[k][j][i]`, as in the C source. -/
abbrev Arr3 (K : Type) := ℤ → ℤ → ℤ → K

/-- The 1D transported conserved state `Cons1D` from `athena.h`: sweep-aligned
momenta `Mx,My,Mz`, energy `E`, transverse fields `By,Bz`, passive scalars
`s` (modelled as one value per scalar index). -/
structure Cons1D (K : Type) where
  d : K
  Mx : K
  My : K
  Mz : K
  E : K
  By : K
  Bz : K
  s : ℕ → K

/-- The 1D primitive state `Prim1D` from `athena.h`. -/
structure Prim1D (K : Type) where
  d : K
  Vx : K
  Vy : K
  Vz : K
  P : K
  By : K
  Bz : K
  s : ℕ → K

/-- Cell-centered conserved state `Gas` (`U[k][j][i]`) from `athena.h`. -/
structure Gas (K : Type) where
  d : K
  M1 : K
  M2 : K
  M3 : K
  E : K
  B1c : K
  B2c : K
  B3c : K
  s : ℕ → K

/-! ### Step 10b: full-step constrained-transport face-field update

Direct translation of the loops at `integrate_3d_ctu.c:1874-1900`.
`B1i` is updated for `is<=i<=ie+1`, `B2i` for `js<=j<=je+1`, `B3i` for
`ks<=k<=ke+1` (each with the other two indices in the interior range),
with corner-EMF differences scaled by `dtodx1 = dt/dx1` etc. -/

/-- Full-step CT update of `B1i` (`pG->B1i[k][j][i] += dtodx3*(emf2[k+1][j][i]
- emf2[k][j][i]) - dtodx2*(emf3[k][j+1][i] - emf3[k][j][i])`), written for
`ks<=k<=ke`, `js<=j<=je`, `is<=i<=ie+1`; all other entries unchanged. -/
def ctB1i (B1i emf2 emf3 : Arr3 K) (dtodx2 dtodx3 : K)
    (iL iR jL jR kL kR : ℤ) : Arr3 K := fun k j i =>
  if kL ≤ k ∧ k ≤ kR ∧ jL ≤ j ∧ j ≤ jR ∧ iL ≤ i ∧ i ≤ iR + 1 then
    B1i k j i + dtodx3 * (emf2 (k+1) j i - emf2 k j i)
              - dtodx2 * (emf3 k (j+1) i - emf3 k j i)
  else B1i k j i

/-- Full-step CT update of `B2i`, written for `ks<=k<=ke`, `js<=j<=je+1`,
`is<=i<=ie`; all other entries unchanged. -/
def ctB2i (B2i emf1 emf3 : Arr3 K) (dtodx1 dtodx3 : K)
    (iL iR jL jR kL kR : ℤ) : Arr3 K := fun k j i =>
  if kL ≤ k ∧ k ≤ kR ∧ jL ≤ j ∧ j ≤ jR + 1 ∧ iL ≤ i ∧ i ≤ iR then
    B2i k j i + dtodx1 * (emf3 k j (i+1) - emf3 k j i)
              - dtodx3 * (emf1 (k+1) j i - emf1 k j i)
  else B2i k j i

/-- Full-step CT update of `B3i`, written for `ks<=k<=ke+1`, `js<=j<=je`,
`is<=i<=ie`; all other entries unchanged. -/
def ctB3i (B3i emf1 emf2 : Arr3 K) (dtodx1 dtodx2 : K)
    (iL iR jL jR kL kR : ℤ) : Arr3 K := fun k j i =>
  if kL ≤ k ∧ k ≤ kR + 1 ∧ jL ≤ j ∧ j ≤ jR ∧ iL ≤ i ∧ i ≤ iR then
    B3i k j i + dtodx2 * (emf1 k (j+1) i - emf1 k j i)
              - dtodx1 * (emf2 k j (i+1) - emf2 k j i)
  else B3i k j i

/-- Discrete face-field divergence of cell `(k,j,i)`:
`(B1i[k][j][i+1]-B1i[k][j][i])/dx1 + (B2i[k][j+1][i]-B2i[k][j][i])/dx2 +
(B3i[k+1][j][i]-B3i[k][j][i])/dx3`. -/
def divB (B1i B2i B3i : Arr3 K) (dx1 dx2 dx3 : K) : Arr3 K := fun k j i =>
  (B1i k j (i+1) - B1i k j i) / dx1 + (B2i k (j+1) i - B2i k j i) / dx2 +
  (B3i (k+1) j i - B3i k j i) / dx3

/-- C1: the full-step CT face-field update of Step 10b leaves the discrete
divergence of every interior cell exactly unchanged, for arbitrary corner-EMF
arrays, so a divergence-free grid stays divergence-free. -/
theorem C1_ct_update_preserves_divergence
    (B1i B2i B3i emf1 emf2 emf3 : Arr3 K)
    (dt dx1 dx2 dx3 : K) (iL iR jL jR kL kR k j i : ℤ)
    (h1 : dx1 ≠ 0) (h2 : dx2 ≠ 0) (h3 : dx3 ≠ 0)
    (hi : iL ≤ i ∧ i ≤ iR) (hj : jL ≤ j ∧ j ≤ jR) (hk : kL ≤ k ∧ k ≤ kR) :
    divB (ctB1i B1i emf2 emf3 (dt/dx2) (dt/dx3) iL iR jL jR kL kR)
         (ctB2i B2i emf1 emf3 (dt/dx1) (dt/dx3) iL iR jL jR kL kR)
         (ctB3i B3i emf1 emf2 (dt/dx1) (dt/dx2) iL iR jL jR kL kR)
         dx1 dx2 dx3 k j i
      = divB B1i B2i B3i dx1 dx2 dx3 k j i := by
  obtain ⟨hi1, hi2⟩ := hi
  obtain ⟨hj1, hj2⟩ := hj
  obtain ⟨hk1, hk2⟩ := hk
  have c1a : kL ≤ k ∧ k ≤ kR ∧ jL ≤ j ∧ j ≤ jR ∧ iL ≤ i + 1 ∧ i + 1 ≤ iR + 1 := by
    omega
  have c1b : kL ≤ k ∧ k ≤ kR ∧ jL ≤ j ∧ j ≤ jR ∧ iL ≤ i ∧ i ≤ iR + 1 := by
    omega
  have c2a : kL ≤ k ∧ k ≤ kR ∧ jL ≤ j + 1 ∧ j + 1 ≤ jR + 1 ∧ iL ≤ i ∧ i ≤ iR := by
    omega
  have c2b : kL ≤ k ∧ k ≤ kR ∧ jL ≤ j ∧ j ≤ jR + 1 ∧ iL ≤ i ∧ i ≤ iR := by
    omega
  have c3a : kL ≤ k + 1 ∧ k + 1 ≤ kR + 1 ∧ jL ≤ j ∧ j ≤ jR ∧ iL ≤ i ∧ i ≤ iR := by
    omega
  have c3b : kL ≤ k ∧ k ≤ kR + 1 ∧ jL ≤ j ∧ j ≤ jR ∧ iL ≤ i ∧ i ≤ iR := by
    omega
  simp only [divB, ctB1i, ctB2i, ctB3i, if_pos c1a, if_pos c1b, if_pos c2a,
    if_pos c2b, if_pos c3a, if_pos c3b]
  field_simp
  ring

/-- Witness for C1 at a concrete interior cell with concrete data over `ℚ`. -/
theorem C1_ct_update_preserves_divergence_witness :
    divB (ctB1i (K := ℚ) (fun _ _ _ => 1) (fun _ _ _ => 2) (fun _ _ _ => 3)
            (1/2) (1/2) 0 1 0 1 0 1)
         (ctB2i (fun _ _ _ => 1) (fun _ _ _ => 5) (fun _ _ _ => 3)
            (1/2) (1/2) 0 1 0 1 0 1)
         (ctB3i (fun _ _ _ => 1) (fun _ _ _ => 5) (fun _ _ _ => 2)
            (1/2) (1/2) 0 1 0 1 0 1)
         2 2 2 0 0 0
      = divB (fun _ _ _ => 1) (fun _ _ _ => 1) (fun _ _ _ => 1) 2 2 2 0 0 0 :=
  C1_ct_update_preserves_divergence (fun _ _ _ => 1) (fun _ _ _ => 1)
    (fun _ _ _ => 1) (fun _ _ _ => 5) (fun _ _ _ => 2) (fun _ _ _ => 3)
    1 2 2 2 0 1 0 1 0 1 0 0 0 (by norm_num) (by norm_num) (by norm_num)
    (by norm_num) (by norm_num) (by norm_num)

/-! ### Corner EMF reconstruction (Gardiner-Stone upwind CT)

Direct translations of `integrate_emf1_corner`, `integrate_emf2_corner`,
`integrate_emf3_corner` (`integrate_3d_ctu.c:2459-2633`).  The flux arrays
and the cell-centered EMF arrays are parameters; the functions give the value
stored at `emf?[k][j][i]` for any corner in the computed ranges. -/

/-- Body of the `integrate_emf1_corner` loop (`integrate_3d_ctu.c:2459-2515`). -/
def emf1corner (x2F x3F : Arr3 (Cons1D K)) (e1cc : Arr3 K)
    (k j i : ℤ) : K :=
  let de1_l3 :=
    if (x2F (k-1) j i).d > 0 then (x3F k (j-1) i).Bz - e1cc (k-1) (j-1) i
    else if (x2F (k-1) j i).d < 0 then (x3F k j i).Bz - e1cc (k-1) j i
    else (1/2) * ((x3F k (j-1) i).Bz - e1cc (k-1) (j-1) i +
                  (x3F k j i).Bz - e1cc (k-1) j i)
  let de1_r3 :=
    if (x2F k j i).d > 0 then (x3F k (j-1) i).Bz - e1cc k (j-1) i
    else if (x2F k j i).d < 0 then (x3F k j i).Bz - e1cc k j i
    else (1/2) * ((x3F k (j-1) i).Bz - e1cc k (j-1) i +
                  (x3F k j i).Bz - e1cc k j i)
  let de1_l2 :=
    if (x3F k (j-1) i).d > 0 then -(x2F (k-1) j i).By - e1cc (k-1) (j-1) i
    else if (x3F k (j-1) i).d < 0 then -(x2F k j i).By - e1cc k (j-1) i
    else (1/2) * (-(x2F (k-1) j i).By - e1cc (k-1) (j-1) i
                  - (x2F k j i).By - e1cc k (j-1) i)
  let de1_r2 :=
    if (x3F k j i).d > 0 then -(x2F (k-1) j i).By - e1cc (k-1) j i
    else if (x3F k j i).d < 0 then -(x2F k j i).By - e1cc k j i
    else (1/2) * (-(x2F (k-1) j i).By - e1cc (k-1) j i
                  - (x2F k j i).By - e1cc k j i)
  (1/4) * ((x3F k j i).Bz + (x3F k (j-1) i).Bz
           - (x2F k j i).By - (x2F (k-1) j i).By
           + de1_l2 + de1_r2 + de1_l3 + de1_r3)

/-- Body of the `integrate_emf2_corner` loop (`integrate_3d_ctu.c:2518-2574`). -/
def emf2corner (x1F x3F : Arr3 (Cons1D K)) (e2cc : Arr3 K)
    (k j i : ℤ) : K :=
  let de2_l3 :=
    if (x1F (k-1) j i).d > 0 then -(x3F k j (i-1)).By - e2cc (k-1) j (i-1)
    else if (x1F (k-1) j i).d < 0 then -(x3F k j i).By - e2cc (k-1) j i
    else (1/2) * (-(x3F k j (i-1)).By - e2cc (k-1) j (i-1)
                  - (x3F k j i).By - e2cc (k-1) j i)
  let de2_r3 :=
    if (x1F k j i).d > 0 then -(x3F k j (i-1)).By - e2cc k j (i-1)
    else if (x1F k j i).d < 0 then -(x3F k j i).By - e2cc k j i
    else (1/2) * (-(x3F k j (i-1)).By - e2cc k j (i-1)
                  - (x3F k j i).By - e2cc k j i)
  let de2_l1 :=
    if (x3F k j (i-1)).d > 0 then (x1F (k-1) j i).Bz - e2cc (k-1) j (i-1)
    else if (x3F k j (i-1)).d < 0 then (x1F k j i).Bz - e2cc k j (i-1)
    else (1/2) * ((x1F (k-1) j i).Bz - e2cc (k-1) j (i-1) +
                  (x1F k j i).Bz - e2cc k j (i-1))
  let de2_r1 :=
    if (x3F k j i).d > 0 then (x1F (k-1) j i).Bz - e2cc (k-1) j i
    else if (x3F k j i).d < 0 then (x1F k j i).Bz - e2cc k j i
    else (1/2) * ((x1F (k-1) j i).Bz - e2cc (k-1) j i +
                  (x1F k j i).Bz - e2cc k j i)
  (1/4) * ((x1F k j i).Bz + (x1F (k-1) j i).Bz
           - (x3F k j i).By - (x3F k j (i-1)).By
           + de2_l1 + de2_r1 + de2_l3 + de2_r3)

/-- Body of the `integrate_emf3_corner` loop (`integrate_3d_ctu.c:2576-2632`). -/
def emf3corner (x1F x2F : Arr3 (Cons1D K)) (e3cc : Arr3 K)
    (k j i : ℤ) : K :=
  let de3_l2 :=
    if (x1F k (j-1) i).d > 0 then (x2F k j (i-1)).Bz - e3cc k (j-1) (i-1)
    else if (x1F k (j-1) i).d < 0 then (x2F k j i).Bz - e3cc k (j-1) i
    else (1/2) * ((x2F k j (i-1)).Bz - e3cc k (j-1) (i-1) +
                  (x2F k j i).Bz - e3cc k (j-1) i)
  let de3_r2 :=
    if (x1F k j i).d > 0 then (x2F k j (i-1)).Bz - e3cc k j (i-1)
    else if (x1F k j i).d < 0 then (x2F k j i).Bz - e3cc k j i
    else (1/2) * ((x2F k j (i-1)).Bz - e3cc k j (i-1) +
                  (x2F k j i).Bz - e3cc k j i)
  let de3_l1 :=
    if (x2F k j (i-1)).d > 0 then -(x1F k (j-1) i).By - e3cc k (j-1) (i-1)
    else if (x2F k j (i-1)).d < 0 then -(x1F k j i).By - e3cc k j (i-1)
    else (1/2) * (-(x1F k (j-1) i).By - e3cc k (j-1) (i-1)
                  - (x1F k j i).By - e3cc k j (i-1))
  let de3_r1 :=
    if (x2F k j i).d > 0 then -(x1F k (j-1) i).By - e3cc k (j-1) i
    else if (x2F k j i).d < 0 then -(x1F k j i).By - e3cc k j i
    else (1/2) * (-(x1F k (j-1) i).By - e3cc k (j-1) i
                  - (x1F k j i).By - e3cc k j i)
  (1/4) * ((x2F k (j-1) i).Bz + (x2F k j i).Bz
           - (x1F k (j-1) i).By - (x1F k j i).By
           + de3_l1 + de3_r1 + de3_l2 + de3_r2)

/-- Spec-side upwind selection (§4.2): pick the left difference when the mass
flux across the adjacent face is positive, the right when negative, and the
arithmetic mean of the two when exactly zero. -/
def upwindDiff (massflux lft rgt : K) : K :=
  if massflux > 0 then lft else if massflux < 0 then rgt else (lft + rgt) / 2

/-- Spec-side corner EMF1 (from the spec's words): 1/4 times the four
sign-corrected transverse face-flux EMF values bracketing the edge plus the
four upwind derivative contributions, each an `upwindDiff` of a face-flux EMF
value minus the adjacent cell-centered EMF. -/
def emf1cornerSpec (x2F x3F : Arr3 (Cons1D K)) (e1cc : Arr3 K)
    (k j i : ℤ) : K :=
  (1/4) * ((x3F k j i).Bz + (x3F k (j-1) i).Bz
           - (x2F k j i).By - (x2F (k-1) j i).By
    + upwindDiff (x3F k (j-1) i).d
        (-(x2F (k-1) j i).By - e1cc (k-1) (j-1) i)
        (-(x2F k j i).By - e1cc k (j-1) i)
    + upwindDiff (x3F k j i).d
        (-(x2F (k-1) j i).By - e1cc (k-1) j i)
        (-(x2F k j i).By - e1cc k j i)
    + upwindDiff (x2F (k-1) j i).d
        ((x3F k (j-1) i).Bz - e1cc (k-1) (j-1) i)
        ((x3F k j i).Bz - e1cc (k-1) j i)
    + upwindDiff (x2F k j i).d
        ((x3F k (j-1) i).Bz - e1cc k (j-1) i)
        ((x3F k j i).Bz - e1cc k j i))

/-- Spec-side corner EMF2, under the cyclic index permutation. -/
def emf2cornerSpec (x1F x3F : Arr3 (Cons1D K)) (e2cc : Arr3 K)
    (k j i : ℤ) : K :=
  (1/4) * ((x1F k j i).Bz + (x1F (k-1) j i).Bz
           - (x3F k j i).By - (x3F k j (i-1)).By
    + upwindDiff (x3F k j (i-1)).d
        ((x1F (k-1) j i).Bz - e2cc (k-1) j (i-1))
        ((x1F k j i).Bz - e2cc k j (i-1))
    + upwindDiff (x3F k j i).d
        ((x1F (k-1) j i).Bz - e2cc (k-1) j i)
        ((x1F k j i).Bz - e2cc k j i)
    + upwindDiff (x1F (k-1) j i).d
        (-(x3F k j (i-1)).By - e2cc (k-1) j (i-1))
        (-(x3F k j i).By - e2cc (k-1) j i)
    + upwindDiff (x1F k j i).d
        (-(x3F k j (i-1)).By - e2cc k j (i-1))
        (-(x3F k j i).By - e2cc k j i))

/-- Spec-side corner EMF3, under the cyclic index permutation. -/
def emf3cornerSpec (x1F x2F : Arr3 (Cons1D K)) (e3cc : Arr3 K)
    (k j i : ℤ) : K :=
  (1/4) * ((x2F k (j-1) i).Bz + (x2F k j i).Bz
           - (x1F k (j-1) i).By - (x1F k j i).By
    + upwindDiff (x2F k j (i-1)).d
        (-(x1F k (j-1) i).By - e3cc k (j-1) (i-1))
        (-(x1F k j i).By - e3cc k j (i-1))
    + upwindDiff (x2F k j i).d
        (-(x1F k (j-1) i).By - e3cc k (j-1) i)
        (-(x1F k j i).By - e3cc k j i)
    + upwindDiff (x1F k (j-1) i).d
        ((x2F k j (i-1)).Bz - e3cc k (j-1) (i-1))
        ((x2F k j i).Bz - e3cc k (j-1) i)
    + upwindDiff (x1F k j i).d
        ((x2F k j (i-1)).Bz - e3cc k j (i-1))
        ((x2F k j i).Bz - e3cc k j i))

/-- The code's three-way sign selection, with the zero branch written as a
flat half-sum, is exactly `upwindDiff`. -/
theorem code_select_eq_upwindDiff (m x e y f : K) :
    (if m > 0 then x - e else if m < 0 then y - f
     else (1/2) * (x - e + y - f)) = upwindDiff m (x - e) (y - f) := by
  simp only [upwindDiff]
  split_ifs <;> ring

/-- Variant of `code_select_eq_upwindDiff` for the negated-`By` branches. -/
theorem code_select_eq_upwindDiff_neg (m x e y f : K) :
    (if m > 0 then -x - e else if m < 0 then -y - f
     else (1/2) * (-x - e - y - f)) = upwindDiff m (-x - e) (-y - f) := by
  simp only [upwindDiff]
  split_ifs <;> ring

theorem emf1corner_eq_spec (x2F x3F : Arr3 (Cons1D K)) (e1cc : Arr3 K)
    (k j i : ℤ) :
    emf1corner x2F x3F e1cc k j i = emf1cornerSpec x2F x3F e1cc k j i := by
  unfold emf1corner emf1cornerSpec
  rw [code_select_eq_upwindDiff, code_select_eq_upwindDiff,
    code_select_eq_upwindDiff_neg, code_select_eq_upwindDiff_neg]

theorem emf2corner_eq_spec (x1F x3F : Arr3 (Cons1D K)) (e2cc : Arr3 K)
    (k j i : ℤ) :
    emf2corner x1F x3F e2cc k j i = emf2cornerSpec x1F x3F e2cc k j i := by
  unfold emf2corner emf2cornerSpec
  rw [code_select_eq_upwindDiff_neg, code_select_eq_upwindDiff_neg,
    code_select_eq_upwindDiff, code_select_eq_upwindDiff]

theorem emf3corner_eq_spec (x1F x2F : Arr3 (Cons1D K)) (e3cc : Arr3 K)
    (k j i : ℤ) :
    emf3corner x1F x2F e3cc k j i = emf3cornerSpec x1F x2F e3cc k j i := by
  unfold emf3corner emf3cornerSpec
  rw [code_select_eq_upwindDiff, code_select_eq_upwindDiff,
    code_select_eq_upwindDiff_neg, code_select_eq_upwindDiff_neg]

/-- C3: each corner-EMF value computed by `integrate_emf{1,2,3}_corner` equals
the spec's upwind formula: 0.25 times (the four bracketing sign-corrected
transverse face-flux EMF values plus the four mass-flux-upwinded derivative
contributions, each selected left/right/mean by the sign of the adjacent mass
flux), for every corner and arbitrary flux and cell-centered EMF arrays. -/
theorem C3_corner_emf_upwind (x1F x2F x3F : Arr3 (Cons1D K))
    (e1cc e2cc e3cc : Arr3 K) (k j i : ℤ) :
    emf1corner x2F x3F e1cc k j i = emf1cornerSpec x2F x3F e1cc k j i ∧
    emf2corner x1F x3F e2cc k j i = emf2cornerSpec x1F x3F e2cc k j i ∧
    emf3corner x1F x2F e3cc k j i = emf3cornerSpec x1F x2F e3cc k j i :=
  ⟨emf1corner_eq_spec x2F x3F e1cc k j i,
   emf2corner_eq_spec x1F x3F e2cc k j i,
   emf3corner_eq_spec x1F x2F e3cc k j i⟩

/-! ### MHD half-step source injection in the directional sweeps

Direct translations of the `#ifdef MHD` blocks of Steps 1b, 2b, 3b
(`integrate_3d_ctu.c:167-221,341-395,493-547`): the limited quantities
`l1,l2,l3` and the `Wl/Wr.By,Bz` updates. -/

/-- The code's limiter: for `a = db_d` and transverse divergence `dbt`,
`l = a < -dbt ? a : -dbt; l = l > 0 ? l : 0` when `a >= 0`, and
`l = a > -dbt ? a : -dbt; l = l < 0 ? l : 0` otherwise
(`integrate_3d_ctu.c:174-187` and its five analogues). -/
def limCode (a dbt : K) : K :=
  if a ≥ 0 then
    let l := if a < -dbt then a else -dbt
    if l > 0 then l else 0
  else
    let l := if a > -dbt then a else -dbt
    if l < 0 then l else 0

/-- Spec-side limiter: `min(a, -db_t)` clipped below by 0 when `a >= 0`,
`max(a, -db_t)` clipped above by 0 when `a < 0`. -/
def limSpec (a dbt : K) : K :=
  if a ≥ 0 then max (min a (-dbt)) 0 else min (max a (-dbt)) 0

theorem limCode_eq_limSpec (a dbt : K) : limCode a dbt = limSpec a dbt := by
  simp only [limCode, limSpec, max_def, min_def]
  split_ifs <;> first | rfl | linarith

/-- The three face-field divergence components of cell `(k,j,i)`:
`db1 = (B1i[k][j][i+1]-B1i[k][j][i])*dx1i`, `db2`, `db3` analogously. -/
def dbAt (B1i B2i B3i : Arr3 K) (dx1i dx2i dx3i : K) (k j i : ℤ) :
    K × K × K :=
  ((B1i k j (i+1) - B1i k j i) * dx1i,
   (B2i k (j+1) i - B2i k j i) * dx2i,
   (B3i (k+1) j i - B3i k j i) * dx3i)

/-- x1-sweep MHD source terms for the left state at interface `i`
(zone `i-1`), `integrate_3d_ctu.c:169-193`. -/
def x1MhdSrcWl (B1i B2i B3i : Arr3 K) (U : Arr3 (Gas K))
    (dx1i dx2i dx3i hdt : K) (k j i : ℤ) (w : Prim1D K) : Prim1D K :=
  let db1 := (B1i k j i - B1i k j (i-1)) * dx1i
  let db2 := (B2i k (j+1) (i-1) - B2i k j (i-1)) * dx2i
  let db3 := (B3i (k+1) j (i-1) - B3i k j (i-1)) * dx3i
  let l3 := limCode db1 db3
  let l2 := limCode db1 db2
  let srcBy := (U k j (i-1)).M2 / (U k j (i-1)).d * l2
  let srcBz := (U k j (i-1)).M3 / (U k j (i-1)).d * l3
  { w with By := w.By + hdt * srcBy, Bz := w.Bz + hdt * srcBz }

/-- x1-sweep MHD source terms for the right state at interface `i`
(zone `i`), `integrate_3d_ctu.c:195-219`. -/
def x1MhdSrcWr (B1i B2i B3i : Arr3 K) (U : Arr3 (Gas K))
    (dx1i dx2i dx3i hdt : K) (k j i : ℤ) (w : Prim1D K) : Prim1D K :=
  let db1 := (B1i k j (i+1) - B1i k j i) * dx1i
  let db2 := (B2i k (j+1) i - B2i k j i) * dx2i
  let db3 := (B3i (k+1) j i - B3i k j i) * dx3i
  let l3 := limCode db1 db3
  let l2 := limCode db1 db2
  let srcBy := (U k j i).M2 / (U k j i).d * l2
  let srcBz := (U k j i).M3 / (U k j i).d * l3
  { w with By := w.By + hdt * srcBy, Bz := w.Bz + hdt * srcBz }

/-- x2-sweep MHD source terms for the left state at interface `j`
(zone `j-1`), `integrate_3d_ctu.c:343-367`. -/
def x2MhdSrcWl (B1i B2i B3i : Arr3 K) (U : Arr3 (Gas K))
    (dx1i dx2i dx3i hdt : K) (k j i : ℤ) (w : Prim1D K) : Prim1D K :=
  let db1 := (B1i k (j-1) (i+1) - B1i k (j-1) i) * dx1i
  let db2 := (B2i k j i - B2i k (j-1) i) * dx2i
  let db3 := (B3i (k+1) (j-1) i - B3i k (j-1) i) * dx3i
  let l1 := limCode db2 db1
  let l3 := limCode db2 db3
  let srcBy := (U k (j-1) i).M3 / (U k (j-1) i).d * l3
  let srcBz := (U k (j-1) i).M1 / (U k (j-1) i).d * l1
  { w with By := w.By + hdt * srcBy, Bz := w.Bz + hdt * srcBz }

/-- x2-sweep MHD source terms for the right state at interface `j`
(zone `j`), `integrate_3d_ctu.c:369-393`. -/
def x2MhdSrcWr (B1i B2i B3i : Arr3 K) (U : Arr3 (Gas K))
    (dx1i dx2i dx3i hdt : K) (k j i : ℤ) (w : Prim1D K) : Prim1D K :=
  let db1 := (B1i k j (i+1) - B1i k j i) * dx1i
  let db2 := (B2i k (j+1) i - B2i k j i) * dx2i
  let db3 := (B3i (k+1) j i - B3i k j i) * dx3i
  let l1 := limCode db2 db1
  let l3 := limCode db2 db3
  let srcBy := (U k j i).M3 / (U k j i).d * l3
  let srcBz := (U k j i).M1 / (U k j i).d * l1
  { w with By := w.By + hdt * srcBy, Bz := w.Bz + hdt * srcBz }

/-- x3-sweep MHD source terms for the left state at interface `k`
(zone `k-1`), `integrate_3d_ctu.c:495-519`. -/
def x3MhdSrcWl (B1i B2i B3i : Arr3 K) (U : Arr3 (Gas K))
    (dx1i dx2i dx3i hdt : K) (k j i : ℤ) (w : Prim1D K) : Prim1D K :=
  let db1 := (B1i (k-1) j (i+1) - B1i (k-1) j i) * dx1i
  let db2 := (B2i (k-1) (j+1) i - B2i (k-1) j i) * dx2i
  let db3 := (B3i k j i - B3i (k-1) j i) * dx3i
  let l1 := limCode db3 db1
  let l2 := limCode db3 db2
  let srcBy := (U (k-1) j i).M1 / (U (k-1) j i).d * l1
  let srcBz := (U (k-1) j i).M2 / (U (k-1) j i).d * l2
  { w with By := w.By + hdt * srcBy, Bz := w.Bz + hdt * srcBz }

/-- x3-sweep MHD source terms for the right state at interface `k`
(zone `k`), `integrate_3d_ctu.c:521-545`. -/
def x3MhdSrcWr (B1i B2i B3i : Arr3 K) (U : Arr3 (Gas K))
    (dx1i dx2i dx3i hdt : K) (k j i : ℤ) (w : Prim1D K) : Prim1D K :=
  let db1 := (B1i k j (i+1) - B1i k j i) * dx1i
  let db2 := (B2i k (j+1) i - B2i k j i) * dx2i
  let db3 := (B3i (k+1) j i - B3i k j i) * dx3i
  let l1 := limCode db3 db1
  let l2 := limCode db3 db2
  let srcBy := (U k j i).M1 / (U k j i).d * l1
  let srcBz := (U k j i).M2 / (U k j i).d * l2
  { w with By := w.By + hdt * srcBy, Bz := w.Bz + hdt * srcBz }

/-- C4: in every sweep's MHD half-step source injection the limited quantity
equals `min(a,-db_t)` clipped below by 0 for `a = db_d >= 0` and
`max(a,-db_t)` clipped above by 0 for `a < 0`, with `db` the face-field
divergence components of cell `f-1` for `Wl` and cell `f` for `Wr`
(`dbAt`), and the transverse momentum pairing is: x1 sweep
`By += (dt/2)*(M2/d)*l2`, `Bz += (dt/2)*(M3/d)*l3`; x2 sweep
`By += (dt/2)*(M3/d)*l3`, `Bz += (dt/2)*(M1/d)*l1`; x3 sweep
`By += (dt/2)*(M1/d)*l1`, `Bz += (dt/2)*(M2/d)*l2`. -/
theorem C4_mhd_halfstep_limiter_and_pairing
    (B1i B2i B3i : Arr3 K) (U : Arr3 (Gas K))
    (dx1i dx2i dx3i hdt : K) (k j i : ℤ) (w : Prim1D K) :
    (x1MhdSrcWl B1i B2i B3i U dx1i dx2i dx3i hdt k j i w =
      { w with
        By := w.By + hdt * ((U k j (i-1)).M2 / (U k j (i-1)).d) *
          limSpec (dbAt B1i B2i B3i dx1i dx2i dx3i k j (i-1)).1
                  (dbAt B1i B2i B3i dx1i dx2i dx3i k j (i-1)).2.1,
        Bz := w.Bz + hdt * ((U k j (i-1)).M3 / (U k j (i-1)).d) *
          limSpec (dbAt B1i B2i B3i dx1i dx2i dx3i k j (i-1)).1
                  (dbAt B1i B2i B3i dx1i dx2i dx3i k j (i-1)).2.2 }) ∧
    (x1MhdSrcWr B1i B2i B3i U dx1i dx2i dx3i hdt k j i w =
      { w with
        By := w.By + hdt * ((U k j i).M2 / (U k j i).d) *
          limSpec (dbAt B1i B2i B3i dx1i dx2i dx3i k j i).1
                  (dbAt B1i B2i B3i dx1i dx2i dx3i k j i).2.1,
        Bz := w.Bz + hdt * ((U k j i).M3 / (U k j i).d) *
          limSpec (dbAt B1i B2i B3i dx1i dx2i dx3i k j i).1
                  (dbAt B1i B2i B3i dx1i dx2i dx3i k j i).2.2 }) ∧
    (x2MhdSrcWl B1i B2i B3i U dx1i dx2i dx3i hdt k j i w =
      { w with
        By := w.By + hdt * ((U k (j-1) i).M3 / (U k (j-1) i).d) *
          limSpec (dbAt B1i B2i B3i dx1i dx2i dx3i k (j-1) i).2.1
                  (dbAt B1i B2i B3i dx1i dx2i dx3i k (j-1) i).2.2,
        Bz := w.Bz + hdt * ((U k (j-1) i).M1 / (U k (j-1) i).d) *
          limSpec (dbAt B1i B2i B3i dx1i dx2i dx3i k (j-1) i).2.1
                  (dbAt B1i B2i B3i dx1i dx2i dx3i k (j-1) i).1 }) ∧
    (x2MhdSrcWr B1i B2i B3i U dx1i dx2i dx3i hdt k j i w =
      { w with
        By := w.By + hdt * ((U k j i).M3 / (U k j i).d) *
          limSpec (dbAt B1i B2i B3i dx1i dx2i dx3i k j i).2.1
                  (dbAt B1i B2i B3i dx1i dx2i dx3i k j i).2.2,
        Bz := w.Bz + hdt * ((U k j i).M1 / (U k j i).d) *
          limSpec (dbAt B1i B2i B3i dx1i dx2i dx3i k j i).2.1
                  (dbAt B1i B2i B3i dx1i dx2i dx3i k j i).1 }) ∧
    (x3MhdSrcWl B1i B2i B3i U dx1i dx2i dx3i hdt k j i w =
      { w with
        By := w.By + hdt * ((U (k-1) j i).M1 / (U (k-1) j i).d) *
          limSpec (dbAt B1i B2i B3i dx1i dx2i dx3i (k-1) j i).2.2
                  (dbAt B1i B2i B3i dx1i dx2i dx3i (k-1) j i).1,
        Bz := w.Bz + hdt * ((U (k-1) j i).M2 / (U (k-1) j i).d) *
          limSpec (dbAt B1i B2i B3i dx1i dx2i dx3i (k-1) j i).2.2
                  (dbAt B1i B2i B3i dx1i dx2i dx3i (k-1) j i).2.1 }) ∧
    (x3MhdSrcWr B1i B2i B3i U dx1i dx2i dx3i hdt k j i w =
      { w with
        By := w.By + hdt * ((U k j i).M1 / (U k j i).d) *
          limSpec (dbAt B1i B2i B3i dx1i dx2i dx3i k j i).2.2
                  (dbAt B1i B2i B3i dx1i dx2i dx3i k j i).1,
        Bz := w.Bz + hdt * ((U k j i).M2 / (U k j i).d) *
          limSpec (dbAt B1i B2i B3i dx1i dx2i dx3i k j i).2.2
                  (dbAt B1i B2i B3i dx1i dx2i dx3i k j i).2.1 }) := by
  refine ⟨?_, ?_, ?_, ?_, ?_, ?_⟩ <;>
  · simp only [x1MhdSrcWl, x1MhdSrcWr, x2MhdSrcWl, x2MhdSrcWr,
      x3MhdSrcWl, x3MhdSrcWr, dbAt, limCode_eq_limSpec, sub_add_cancel]
    congr 1 <;> first | rfl | ring

/-! ### H-correction (Step 9, `integrate_3d_ctu.c:1699-1755,1774-1784,1804-1814`)

`cfast` (the fast magnetosonic speed of an interface state, given the normal
field) is an external collaborator and enters as a function parameter. -/

/-- Body of the `eta?[k][j][i]` loops (`integrate_3d_ctu.c:1703-1707` and its
two analogues): `cfr/cfl` from the corrected R/L face states, then
`0.5*fabs(lambdar - lambdal)`. -/
def etaFaceArr (cfast : Cons1D K → K → K) (Ulc Urc : Arr3 (Cons1D K))
    (Bf : Arr3 K) : Arr3 K := fun k j i =>
  let cfr := cfast (Urc k j i) (Bf k j i)
  let cfl := cfast (Ulc k j i) (Bf k j i)
  let lambdar := (Urc k j i).Mx / (Urc k j i).d + cfr
  let lambdal := (Ulc k j i).Mx / (Ulc k j i).d - cfl
  (1/2) * |lambdar - lambdal|

/-- The `etah` value set before the second x1-sweep Riemann solve
(`integrate_3d_ctu.c:1745-1754`): the code's chain of `MAX` calls. -/
def etahX1 (eta1 eta2 eta3 : Arr3 K) (k j i : ℤ) : K :=
  let e := max (eta2 k j (i-1)) (eta2 k j i)
  let e := max e (eta2 k (j+1) (i-1))
  let e := max e (eta2 k (j+1) i)
  let e := max e (eta3 k j (i-1))
  let e := max e (eta3 k j i)
  let e := max e (eta3 (k+1) j (i-1))
  let e := max e (eta3 (k+1) j i)
  max e (eta1 k j i)

/-- The `etah` value set before the second x2-sweep Riemann solve
(`integrate_3d_ctu.c:1775-1784`). -/
def etahX2 (eta1 eta2 eta3 : Arr3 K) (k j i : ℤ) : K :=
  let e := max (eta1 k (j-1) i) (eta1 k j i)
  let e := max e (eta1 k (j-1) (i+1))
  let e := max e (eta1 k j (i+1))
  let e := max e (eta3 k (j-1) i)
  let e := max e (eta3 k j i)
  let e := max e (eta3 (k+1) (j-1) i)
  let e := max e (eta3 (k+1) j i)
  max e (eta2 k j i)

/-- The `etah` value set before the second x3-sweep Riemann solve
(`integrate_3d_ctu.c:1805-1814`). -/
def etahX3 (eta1 eta2 eta3 : Arr3 K) (k j i : ℤ) : K :=
  let e := max (eta1 (k-1) j i) (eta1 k j i)
  let e := max e (eta1 (k-1) j (i+1))
  let e := max e (eta1 k j (i+1))
  let e := max e (eta2 (k-1) j i)
  let e := max e (eta2 k j i)
  let e := max e (eta2 (k-1) (j+1) i)
  let e := max e (eta2 k (j+1) i)
  max e (eta3 k j i)

/-- C6: the eta field of every face is `0.5*|lambda_R - lambda_L|` with
`lambda_R = Ur.Mx/Ur.d + cfast(Ur)` and `lambda_L = Ul.Mx/Ul.d - cfast(Ul)`
evaluated on the transverse-corrected face states, and the `etah` passed to
each second-sweep Riemann solve is the maximum of exactly nine eta values:
the face's own eta plus the four bracketing transverse faces in each of the
two planes containing the face normal, with the symmetric index pattern
across the three axes. -/
theorem C6_h_correction_eta_and_ninepoint_max
    (cfast : Cons1D K → K → K) (Ulc Urc : Arr3 (Cons1D K)) (Bf : Arr3 K)
    (eta1 eta2 eta3 : Arr3 K) (k j i : ℤ) :
    etaFaceArr cfast Ulc Urc Bf k j i =
      (1/2) * |((Urc k j i).Mx / (Urc k j i).d + cfast (Urc k j i) (Bf k j i))
             - ((Ulc k j i).Mx / (Ulc k j i).d - cfast (Ulc k j i) (Bf k j i))| ∧
    etahX1 eta1 eta2 eta3 k j i =
      List.foldl max (eta1 k j i)
        [eta2 k j (i-1), eta2 k j i, eta2 k (j+1) (i-1), eta2 k (j+1) i,
         eta3 k j (i-1), eta3 k j i, eta3 (k+1) j (i-1), eta3 (k+1) j i] ∧
    etahX2 eta1 eta2 eta3 k j i =
      List.foldl max (eta2 k j i)
        [eta1 k (j-1) i, eta1 k j i, eta1 k (j-1) (i+1), eta1 k j (i+1),
         eta3 k (j-1) i, eta3 k j i, eta3 (k+1) (j-1) i, eta3 (k+1) j i] ∧
    etahX3 eta1 eta2 eta3 k j i =
      List.foldl max (eta3 k j i)
        [eta1 (k-1) j i, eta1 k j i, eta1 (k-1) j (i+1), eta1 k j (i+1),
         eta2 (k-1) j i, eta2 k j i, eta2 (k-1) (j+1) i, eta2 k (j+1) i] := by
  refine ⟨rfl, ?_, ?_, ?_⟩ <;>
  · simp only [etahX1, etahX2, etahX3, List.foldl]
    ac_rfl

/-! ### Shearing-box full-step Coriolis update (Step 11a,
`integrate_3d_ctu.c:1913-1962`)

Per-cell translation of the `#ifdef SHEARING_BOX` block: the six flux-stencil
values `x1Flux[k][j][i]`, `x1Flux[k][j][i+1]`, `x2Flux[k][j][i]`,
`x2Flux[k][j+1][i]`, `x3Flux[k][j][i]`, `x3Flux[k+1][j][i]` enter as the
parameters `f1l f1r f2l f2r f3l f3r`. -/

/-- The Crank-Nicholson Coriolis update applied to `(M1, M2)` of one interior
cell, translated statement-by-statement from `integrate_3d_ctu.c:1914-1962`
(`fact`, `TH_om`, `M1n`, `dM2n`, the y-momentum fluctuation fluxes, the
forward-Euler half-step evolution, the two momentum updates, and the extra
non-FARGO `M2` decrement). -/
def sbCoriolisCN (fargo : Bool) (Omega dt dx1 q1 q2 q3 x1 : K)
    (cell : Gas K) (f1l f1r f2l f2r f3l f3r : Cons1D K) : K × K :=
  let om_dt := Omega * dt
  let fact := om_dt / (1 + (1/4) * om_dt * om_dt)
  let TH_om := (3/2) * Omega
  let M1n := cell.M1
  let dM2n := if fargo then cell.M2 else cell.M2 + cell.d * TH_om * x1
  let frx1_dM2 := f1r.My
  let flx1_dM2 := f1l.My
  let frx2_dM2 := f2r.Mx
  let flx2_dM2 := f2l.Mx
  let frx3_dM2 := f3r.Mz
  let flx3_dM2 := f3l.Mz
  let frx1_dM2 := if fargo then frx1_dM2
    else frx1_dM2 + TH_om * (x1 + (1/2) * dx1) * f1r.d
  let flx1_dM2 := if fargo then flx1_dM2
    else flx1_dM2 + TH_om * (x1 - (1/2) * dx1) * f1l.d
  let frx2_dM2 := if fargo then frx2_dM2 else frx2_dM2 + TH_om * x1 * f2r.d
  let flx2_dM2 := if fargo then flx2_dM2 else flx2_dM2 + TH_om * x1 * f2l.d
  let frx3_dM2 := if fargo then frx3_dM2 else frx3_dM2 + TH_om * x1 * f3r.d
  let flx3_dM2 := if fargo then flx3_dM2 else flx3_dM2 + TH_om * x1 * f3l.d
  let M1e := M1n - q1 * (f1r.Mx - f1l.Mx) - q2 * (f2r.Mz - f2l.Mz)
           - q3 * (f3r.My - f3l.My)
  let dM2e := dM2n - q1 * (frx1_dM2 - flx1_dM2) - q2 * (frx2_dM2 - flx2_dM2)
            - q3 * (frx3_dM2 - flx3_dM2)
  let M1out := cell.M1 + (2 * dM2e - (1/2) * om_dt * M1e) * fact
  let M2out := cell.M2 - (1/2) * (M1e + om_dt * dM2e) * fact
  let M2out := if fargo then M2out
    else M2out - (3/4) * om_dt * (f1l.d + f1r.d)
  (M1out, M2out)

/-- Forward-Euler dt/2 prediction of `M1` from the second-sweep fluxes
(`integrate_3d_ctu.c:1946-1948`). -/
def sbM1e (q1 q2 q3 M1n : K) (f1l f1r f2l f2r f3l f3r : Cons1D K) : K :=
  M1n - q1 * (f1r.Mx - f1l.Mx) - q2 * (f2r.Mz - f2l.Mz)
      - q3 * (f3r.My - f3l.My)

/-- Forward-Euler dt/2 prediction of the y-momentum fluctuation
`dM2 = M2 + d*(3/2)*Omega*x1` (plain `M2` under FARGO), evolved by the
fluctuation fluxes (`integrate_3d_ctu.c:1922-1952`). -/
def sbdM2e (fargo : Bool) (Omega dx1 q1 q2 q3 x1 d M2 : K)
    (f1l f1r f2l f2r f3l f3r : Cons1D K) : K :=
  let TH_om := (3/2) * Omega
  let dM2n := if fargo then M2 else M2 + d * TH_om * x1
  let frx1 := if fargo then f1r.My
    else f1r.My + TH_om * (x1 + (1/2) * dx1) * f1r.d
  let flx1 := if fargo then f1l.My
    else f1l.My + TH_om * (x1 - (1/2) * dx1) * f1l.d
  let frx2 := if fargo then f2r.Mx else f2r.Mx + TH_om * x1 * f2r.d
  let flx2 := if fargo then f2l.Mx else f2l.Mx + TH_om * x1 * f2l.d
  let frx3 := if fargo then f3r.Mz else f3r.Mz + TH_om * x1 * f3r.d
  let flx3 := if fargo then f3l.Mz else f3l.Mz + TH_om * x1 * f3l.d
  dM2n - q1 * (frx1 - flx1) - q2 * (frx2 - flx2) - q3 * (frx3 - flx3)

/-- C5: the full-step shearing-box Coriolis update computes
`fact = Omega*dt/(1 + 0.25*(Omega*dt)^2)` and applies
`M1 += (2*dM2e - 0.5*Omega*dt*M1e)*fact`,
`M2 -= 0.5*(M1e + Omega*dt*dM2e)*fact`, with `M1e`,`dM2e` the forward-Euler
dt/2 predictions from the second-sweep fluxes and `dM2n = M2 +
d*(3/2)*Omega*x1` (`M2` under FARGO); in the non-FARGO case only, `M2` is
further decremented by `0.75*Omega*dt*(x1Flux[k][j][i].d +
x1Flux[k][j][i+1].d)`, unconditionally. -/
theorem C5_shearing_box_crank_nicholson
    (fargo : Bool) (Omega dt dx1 q1 q2 q3 x1 : K)
    (cell : Gas K) (f1l f1r f2l f2r f3l f3r : Cons1D K) :
    (sbCoriolisCN fargo Omega dt dx1 q1 q2 q3 x1 cell
        f1l f1r f2l f2r f3l f3r).1 =
      cell.M1 + (2 * sbdM2e fargo Omega dx1 q1 q2 q3 x1 cell.d cell.M2
                     f1l f1r f2l f2r f3l f3r
                 - (1/2) * (Omega * dt) *
                   sbM1e q1 q2 q3 cell.M1 f1l f1r f2l f2r f3l f3r) *
        ((Omega * dt) / (1 + (1/4) * (Omega * dt)^2)) ∧
    (sbCoriolisCN fargo Omega dt dx1 q1 q2 q3 x1 cell
        f1l f1r f2l f2r f3l f3r).2 =
      cell.M2 - (1/2) * (sbM1e q1 q2 q3 cell.M1 f1l f1r f2l f2r f3l f3r
                 + (Omega * dt) * sbdM2e fargo Omega dx1 q1 q2 q3 x1 cell.d
                     cell.M2 f1l f1r f2l f2r f3l f3r) *
        ((Omega * dt) / (1 + (1/4) * (Omega * dt)^2)) -
      (if fargo then 0 else (3/4) * (Omega * dt) * (f1l.d + f1r.d)) := by
  cases fargo <;>
    simp only [sbCoriolisCN, sbM1e, sbdM2e, if_true, if_false,
      Bool.false_eq_true, ite_false, ite_true] <;>
    exact ⟨by ring, by ring⟩

/-! ### Interface-state source phases of the three sweeps (Steps 1b-1c,
2b-2c, 3b-3c), compiled with MHD and SHEARING_BOX enabled.

Each function applies, in source order, every modification an interface
state `Wl`/`Wr` receives between `lr_states` and `Prim1D_to_Cons1D`:
the MHD half-step source, the static-potential source (callback `pot`,
`none` models a NULL `StaticGravPot`), the self-gravity source (flag
`selfg` models `#ifdef SELF_GRAVITY`), the cooling source (callback `cool`,
guarded by `#ifndef BAROTROPIC`), and - in the x1 sweep only, per
`integrate_3d_ctu.c:270-286` - the shearing-box Coriolis source.  The x2-
and x3-sweep phases (`integrate_3d_ctu.c:341-452,493-604`) contain no
shearing-box block even when SHEARING_BOX is enabled. -/

/-- x1-sweep source phase for `Wl[i]` (`integrate_3d_ctu.c:167-286`, left
states, zone `i-1`). -/
def sweep1SrcWl (pot : Option (K → K → K → K)) (selfg : Bool)
    (cool : Option (K → K → K → K)) (barotropic : Bool) (Gamma1 : K)
    (B1i B2i B3i : Arr3 K) (U : Arr3 (Gas K)) (Phi : Arr3 K)
    (W : ℤ → Prim1D K) (x1pos x2pos x3pos : ℤ → K)
    (dx1 dx2 dx3 dt Omega : K) (fargo : Bool) (k j i : ℤ)
    (w0 : Prim1D K) : Prim1D K :=
  let dtodx1 := dt / dx1
  let q1 := (1/2) * dtodx1
  let w := x1MhdSrcWl B1i B2i B3i U (1/dx1) (1/dx2) (1/dx3) ((1/2)*dt) k j i w0
  let w := match pot with
    | some phi =>
      let x1 := x1pos i
      let x2 := x2pos j
      let x3 := x3pos k
      let phicl := phi (x1 - dx1) x2 x3
      let phifc := phi (x1 - (1/2)*dx1) x2 x3
      { w with Vx := w.Vx - dtodx1 * (phifc - phicl) }
    | none => w
  let w := if selfg then
      { w with Vx := w.Vx - q1 * (Phi k j i - Phi k j (i-1)) }
    else w
  let w := match cool with
    | some cf =>
      if barotropic then w
      else { w with P := w.P - (1/2)*dt*Gamma1 * cf w.d w.P ((1/2)*dt) }
    | none => w
  { w with Vx := w.Vx + dt * Omega * (W (i-1)).Vy,
           Vy := w.Vy - (if fargo then (1/4) * dt * Omega * (W (i-1)).Vx
                         else dt * Omega * (W (i-1)).Vx) }

/-- x1-sweep source phase for `Wr[i]` (zone `i`). -/
def sweep1SrcWr (pot : Option (K → K → K → K)) (selfg : Bool)
    (cool : Option (K → K → K → K)) (barotropic : Bool) (Gamma1 : K)
    (B1i B2i B3i : Arr3 K) (U : Arr3 (Gas K)) (Phi : Arr3 K)
    (W : ℤ → Prim1D K) (x1pos x2pos x3pos : ℤ → K)
    (dx1 dx2 dx3 dt Omega : K) (fargo : Bool) (k j i : ℤ)
    (w0 : Prim1D K) : Prim1D K :=
  let dtodx1 := dt / dx1
  let q1 := (1/2) * dtodx1
  let w := x1MhdSrcWr B1i B2i B3i U (1/dx1) (1/dx2) (1/dx3) ((1/2)*dt) k j i w0
  let w := match pot with
    | some phi =>
      let x1 := x1pos i
      let x2 := x2pos j
      let x3 := x3pos k
      let phicr := phi x1 x2 x3
      let phifc := phi (x1 - (1/2)*dx1) x2 x3
      { w with Vx := w.Vx - dtodx1 * (phicr - phifc) }
    | none => w
  let w := if selfg then
      { w with Vx := w.Vx - q1 * (Phi k j i - Phi k j (i-1)) }
    else w
  let w := match cool with
    | some cf =>
      if barotropic then w
      else { w with P := w.P - (1/2)*dt*Gamma1 * cf w.d w.P ((1/2)*dt) }
    | none => w
  { w with Vx := w.Vx + dt * Omega * (W i).Vy,
           Vy := w.Vy - (if fargo then (1/4) * dt * Omega * (W i).Vx
                         else dt * Omega * (W i).Vx) }

/-- x2-sweep source phase for `Wl[j]` (`integrate_3d_ctu.c:341-438`, left
states, zone `j-1`).  Note: no shearing-box block exists in this phase. -/
def sweep2SrcWl (pot : Option (K → K → K → K)) (selfg : Bool)
    (cool : Option (K → K → K → K)) (barotropic : Bool) (Gamma1 : K)
    (B1i B2i B3i : Arr3 K) (U : Arr3 (Gas K)) (Phi : Arr3 K)
    (x1pos x2pos x3pos : ℤ → K)
    (dx1 dx2 dx3 dt : K) (k j i : ℤ) (w0 : Prim1D K) : Prim1D K :=
  let dtodx2 := dt / dx2
  let q2 := (1/2) * dtodx2
  let w := x2MhdSrcWl B1i B2i B3i U (1/dx1) (1/dx2) (1/dx3) ((1/2)*dt) k j i w0
  let w := match pot with
    | some phi =>
      let x1 := x1pos i
      let x2 := x2pos j
      let x3 := x3pos k
      let phicl := phi x1 (x2 - dx2) x3
      let phifc := phi x1 (x2 - (1/2)*dx2) x3
      { w with Vx := w.Vx - dtodx2 * (phifc - phicl) }
    | none => w
  let w := if selfg then
      { w with Vx := w.Vx - q2 * (Phi k j i - Phi k (j-1) i) }
    else w
  match cool with
  | some cf =>
    if barotropic then w
    else { w with P := w.P - (1/2)*dt*Gamma1 * cf w.d w.P ((1/2)*dt) }
  | none => w

/-- x2-sweep source phase for `Wr[j]` (zone `j`). -/
def sweep2SrcWr (pot : Option (K → K → K → K)) (selfg : Bool)
    (cool : Option (K → K → K → K)) (barotropic : Bool) (Gamma1 : K)
    (B1i B2i B3i : Arr3 K) (U : Arr3 (Gas K)) (Phi : Arr3 K)
    (x1pos x2pos x3pos : ℤ → K)
    (dx1 dx2 dx3 dt : K) (k j i : ℤ) (w0 : Prim1D K) : Prim1D K :=
  let dtodx2 := dt / dx2
  let q2 := (1/2) * dtodx2
  let w := x2MhdSrcWr B1i B2i B3i U (1/dx1) (1/dx2) (1/dx3) ((1/2)*dt) k j i w0
  let w := match pot with
    | some phi =>
      let x1 := x1pos i
      let x2 := x2pos j
      let x3 := x3pos k
      let phicr := phi x1 x2 x3
      let phifc := phi x1 (x2 - (1/2)*dx2) x3
      { w with Vx := w.Vx - dtodx2 * (phicr - phifc) }
    | none => w
  let w := if selfg then
      { w with Vx := w.Vx - q2 * (Phi k j i - Phi k (j-1) i) }
    else w
  match cool with
  | some cf =>
    if barotropic then w
    else { w with P := w.P - (1/2)*dt*Gamma1 * cf w.d w.P ((1/2)*dt) }
  | none => w

/-- x3-sweep source phase for `Wl[k]` (`integrate_3d_ctu.c:493-590`, left
states, zone `k-1`).  Note: no shearing-box block exists in this phase. -/
def sweep3SrcWl (pot : Option (K → K → K → K)) (selfg : Bool)
    (cool : Option (K → K → K → K)) (barotropic : Bool) (Gamma1 : K)
    (B1i B2i B3i : Arr3 K) (U : Arr3 (Gas K)) (Phi : Arr3 K)
    (x1pos x2pos x3pos : ℤ → K)
    (dx1 dx2 dx3 dt : K) (k j i : ℤ) (w0 : Prim1D K) : Prim1D K :=
  let dtodx3 := dt / dx3
  let q3 := (1/2) * dtodx3
  let w := x3MhdSrcWl B1i B2i B3i U (1/dx1) (1/dx2) (1/dx3) ((1/2)*dt) k j i w0
  let w := match pot with
    | some phi =>
      let x1 := x1pos i
      let x2 := x2pos j
      let x3 := x3pos k
      let phicl := phi x1 x2 (x3 - dx3)
      let phifc := phi x1 x2 (x3 - (1/2)*dx3)
      { w with Vx := w.Vx - dtodx3 * (phifc - phicl) }
    | none => w
  let w := if selfg then
      { w with Vx := w.Vx - q3 * (Phi k j i - Phi (k-1) j i) }
    else w
  match cool with
  | some cf =>
    if barotropic then w
    else { w with P := w.P - (1/2)*dt*Gamma1 * cf w.d w.P ((1/2)*dt) }
  | none => w

/-- x3-sweep source phase for `Wr[k]` (zone `k`). -/
def sweep3SrcWr (pot : Option (K → K → K → K)) (selfg : Bool)
    (cool : Option (K → K → K → K)) (barotropic : Bool) (Gamma1 : K)
    (B1i B2i B3i : Arr3 K) (U : Arr3 (Gas K)) (Phi : Arr3 K)
    (x1pos x2pos x3pos : ℤ → K)
    (dx1 dx2 dx3 dt : K) (k j i : ℤ) (w0 : Prim1D K) : Prim1D K :=
  let dtodx3 := dt / dx3
  let q3 := (1/2) * dtodx3
  let w := x3MhdSrcWr B1i B2i B3i U (1/dx1) (1/dx2) (1/dx3) ((1/2)*dt) k j i w0
  let w := match pot with
    | some phi =>
      let x1 := x1pos i
      let x2 := x2pos j
      let x3 := x3pos k
      let phicr := phi x1 x2 x3
      let phifc := phi x1 x2 (x3 - (1/2)*dx3)
      { w with Vx := w.Vx - dtodx3 * (phicr - phifc) }
    | none => w
  let w := if selfg then
      { w with Vx := w.Vx - q3 * (Phi k j i - Phi (k-1) j i) }
    else w
  match cool with
  | some cf =>
    if barotropic then w
    else { w with P := w.P - (1/2)*dt*Gamma1 * cf w.d w.P ((1/2)*dt) }
  | none => w

/-- Concrete primitive state used by the C7 counterexample: unit density and
pressure, `Vy = 1`, everything else zero. -/
def cexW : Prim1D ℚ := Prim1D.mk 1 0 1 0 1 0 0 (fun _ => 0)

/-- Concrete conserved grid for the C7 counterexample: unit density cells. -/
def cexU : Arr3 (Gas ℚ) := fun _ _ _ => Gas.mk 1 0 0 0 1 0 0 0 (fun _ => 0)

/-- All-zero scratch array for the C7 counterexample. -/
def cexZ : Arr3 ℚ := fun _ _ _ => 0

/-- C7 counterexample: with SHEARING_BOX enabled, `dt = Omega = 1`, a uniform
slice `W` with `Vy = 1`, no gravity and no cooling, the x2-sweep
interface-state phase leaves `Wl.Vx` unchanged, whereas the claim
(`Wl[f].Vx += dt*Omega*W[f-1].Vy` for every sweep direction) predicts an
increment of `dt*Omega*W[f-1].Vy = 1`.  So the claim fails for `d = 2`. -/
theorem C7_counterexample :
    (sweep2SrcWl none false none false (2/3) cexZ cexZ cexZ cexU cexZ
       (fun _ => 0) (fun _ => 0) (fun _ => 0) 1 1 1 1 0 0 0 cexW).Vx
      ≠ cexW.Vx + 1 * 1 * cexW.Vy := by
  norm_num [sweep2SrcWl, x2MhdSrcWl, limCode, cexW, cexU, cexZ]

/-- C7 amended: only the x1 sweep's interface-state phase adds the
shearing-box Coriolis half-step source to the reconstructed states:
`Wl[i].Vx += dt*Omega*W[i-1].Vy` and `Wl[i].Vy -= dt*Omega*W[i-1].Vx`
(coefficient `-0.25*dt*Omega` under FARGO), with the same sign conventions
for `Wr[i]` using cell `i`; the x2- and x3-sweep interface-state phases add
no Coriolis source to `Wl/Wr`: they never modify `Vy`, and modify `Vx` only
through the gravity callbacks (so `Vx` is unchanged when those are absent). -/
theorem C7_amended_coriolis_injection_x1_sweep_only
    (pot : Option (ℚ → ℚ → ℚ → ℚ)) (selfg : Bool)
    (cool : Option (ℚ → ℚ → ℚ → ℚ)) (barotropic : Bool) (Gamma1 : ℚ)
    (B1i B2i B3i : Arr3 ℚ) (U : Arr3 (Gas ℚ)) (Phi : Arr3 ℚ)
    (W : ℤ → Prim1D ℚ) (x1pos x2pos x3pos : ℤ → ℚ)
    (dx1 dx2 dx3 dt Omega : ℚ) (fargo : Bool) (k j i : ℤ)
    (w0 : Prim1D ℚ) :
    ((sweep1SrcWl none false cool barotropic Gamma1 B1i B2i B3i U Phi W
        x1pos x2pos x3pos dx1 dx2 dx3 dt Omega fargo k j i w0).Vx
      = w0.Vx + dt * Omega * (W (i-1)).Vy) ∧
    ((sweep1SrcWl pot selfg cool barotropic Gamma1 B1i B2i B3i U Phi W
        x1pos x2pos x3pos dx1 dx2 dx3 dt Omega fargo k j i w0).Vy
      = w0.Vy - (if fargo then (1/4) * dt * Omega * (W (i-1)).Vx
                 else dt * Omega * (W (i-1)).Vx)) ∧
    ((sweep1SrcWr none false cool barotropic Gamma1 B1i B2i B3i U Phi W
        x1pos x2pos x3pos dx1 dx2 dx3 dt Omega fargo k j i w0).Vx
      = w0.Vx + dt * Omega * (W i).Vy) ∧
    ((sweep1SrcWr pot selfg cool barotropic Gamma1 B1i B2i B3i U Phi W
        x1pos x2pos x3pos dx1 dx2 dx3 dt Omega fargo k j i w0).Vy
      = w0.Vy - (if fargo then (1/4) * dt * Omega * (W i).Vx
                 else dt * Omega * (W i).Vx)) ∧
    ((sweep2SrcWl none false cool barotropic Gamma1 B1i B2i B3i U Phi
        x1pos x2pos x3pos dx1 dx2 dx3 dt k j i w0).Vx = w0.Vx) ∧
    ((sweep2SrcWl pot selfg cool barotropic Gamma1 B1i B2i B3i U Phi
        x1pos x2pos x3pos dx1 dx2 dx3 dt k j i w0).Vy = w0.Vy) ∧
    ((sweep2SrcWr none false cool barotropic Gamma1 B1i B2i B3i U Phi
        x1pos x2pos x3pos dx1 dx2 dx3 dt k j i w0).Vx = w0.Vx) ∧
    ((sweep2SrcWr pot selfg cool barotropic Gamma1 B1i B2i B3i U Phi
        x1pos x2pos x3pos dx1 dx2 dx3 dt k j i w0).Vy = w0.Vy) ∧
    ((sweep3SrcWl none false cool barotropic Gamma1 B1i B2i B3i U Phi
        x1pos x2pos x3pos dx1 dx2 dx3 dt k j i w0).Vx = w0.Vx) ∧
    ((sweep3SrcWl pot selfg cool barotropic Gamma1 B1i B2i B3i U Phi
        x1pos x2pos x3pos dx1 dx2 dx3 dt k j i w0).Vy = w0.Vy) ∧
    ((sweep3SrcWr none false cool barotropic Gamma1 B1i B2i B3i U Phi
        x1pos x2pos x3pos dx1 dx2 dx3 dt k j i w0).Vx = w0.Vx) ∧
    ((sweep3SrcWr pot selfg cool barotropic Gamma1 B1i B2i B3i U Phi
        x1pos x2pos x3pos dx1 dx2 dx3 dt k j i w0).Vy = w0.Vy) := by
  rcases pot with _ | phi <;> rcases cool with _ | cf <;>
    cases selfg <;> cases barotropic <;> cases fargo <;>
    exact ⟨rfl, rfl, rfl, rfl, rfl, rfl, rfl, rfl, rfl, rfl, rfl, rfl⟩

/-! ### Grid-writing tail of `integrate_3d_ctu` (Steps 10b, 11a-11c, 12a-12d)

Steps 1-9 of `integrate_3d_ctu` write only the module-scratch arrays
(`x?Flux`, `emf?`, `dhalf`, `phalf`, `eta?`, `B?_x?Face`, 1D vectors); every
write to the grid `pG` occurs in Steps 10b-12d.  Those phases are embedded
below as state transformers over the grid state, with the scratch arrays
computed by Steps 1-9 entering as parameters. -/

/-- The persistent grid state owned by `pG`: conserved cells `U`, interface
fields `B1i,B2i,B3i`, the self-gravity mass-flux arrays, the step `dt`, the
time, and the self-gravity potential `Phi`. -/
structure GridState (K : Type) where
  U : Arr3 (Gas K)
  B1i : Arr3 K
  B2i : Arr3 K
  B3i : Arr3 K
  x1MassFlux : Arr3 K
  x2MassFlux : Arr3 K
  x3MassFlux : Arr3 K
  dt : K
  time : K
  Phi : Arr3 K

/-- Grid geometry plus the compile-time/runtime configuration axes:
index bounds `iL..iR` (= `is..ie`), `jL..jR`, `kL..kR`, cell spacings,
cell-center coordinates (`cc_pos`), `Omega`, `four_pi_G`, `grav_mean_rho`,
`Gamma_1`, the flags BAROTROPIC / SHEARING_BOX / FARGO / SELF_GRAVITY, and
the nullable callbacks `StaticGravPot` and `CoolingFunc`. -/
structure Cfg (K : Type) where
  iL : ℤ
  iR : ℤ
  jL : ℤ
  jR : ℤ
  kL : ℤ
  kR : ℤ
  dx1 : K
  dx2 : K
  dx3 : K
  x1pos : ℤ → K
  x2pos : ℤ → K
  x3pos : ℤ → K
  Omega : K
  fourPiG : K
  gravMeanRho : K
  Gamma1 : K
  barotropic : Bool
  shearingBox : Bool
  fargo : Bool
  selfGravity : Bool
  staticGravPot : Option (K → K → K → K)
  coolingFunc : Option (K → K → K → K)

/-- The scratch outputs of Steps 1-9 consumed by the grid-writing phases:
the second-sweep fluxes, the corner EMFs built from them, and the half-step
density and pressure. -/
structure Scratch (K : Type) where
  x1Flux : Arr3 (Cons1D K)
  x2Flux : Arr3 (Cons1D K)
  x3Flux : Arr3 (Cons1D K)
  emf1 : Arr3 K
  emf2 : Arr3 K
  emf3 : Arr3 K
  dhalf : Arr3 K
  phalf : Arr3 K

/-- Interior-cell condition `is<=i<=ie, js<=j<=je, ks<=k<=ke`. -/
def interior (c : Cfg K) (k j i : ℤ) : Prop :=
  c.kL ≤ k ∧ k ≤ c.kR ∧ c.jL ≤ j ∧ j ≤ c.jR ∧ c.iL ≤ i ∧ i ≤ c.iR

instance (c : Cfg K) (k j i : ℤ) : Decidable (interior c k j i) := by
  unfold interior
  infer_instance

/-- Step 10b: the full-step CT update of the three interface-field arrays
(`integrate_3d_ctu.c:1874-1900`), via `ctB1i/ctB2i/ctB3i`. -/
def step10b (c : Cfg K) (sc : Scratch K) (g : GridState K) : GridState K :=
  { g with
    B1i := ctB1i g.B1i sc.emf2 sc.emf3 (g.dt/c.dx2) (g.dt/c.dx3)
             c.iL c.iR c.jL c.jR c.kL c.kR
    B2i := ctB2i g.B2i sc.emf1 sc.emf3 (g.dt/c.dx1) (g.dt/c.dx3)
             c.iL c.iR c.jL c.jR c.kL c.kR
    B3i := ctB3i g.B3i sc.emf1 sc.emf2 (g.dt/c.dx1) (g.dt/c.dx2)
             c.iL c.iR c.jL c.jR c.kL c.kR }

/-- Per-cell body of the SHEARING_BOX branch of Step 11a
(`integrate_3d_ctu.c:1916-1990`): Crank-Nicholson Coriolis update of
`(M1,M2)` via `sbCoriolisCN`, then the fixed-potential energy terms and the
x3 momentum/energy terms.  The C code dereferences `StaticGravPot`
unconditionally here; a NULL callback (modelled by `none`, treated as the
zero potential) would be undefined behaviour in C. -/
def sb11aCell (c : Cfg K) (sc : Scratch K) (dt : K) (k j i : ℤ)
    (cell : Gas K) : Gas K :=
  let dtodx1 := dt / c.dx1
  let dtodx2 := dt / c.dx2
  let dtodx3 := dt / c.dx3
  let q1 := (1/2) * dtodx1
  let q2 := (1/2) * dtodx2
  let q3 := (1/2) * dtodx3
  let x1 := c.x1pos i
  let x2 := c.x2pos j
  let x3 := c.x3pos k
  let phi := match c.staticGravPot with
    | some f => f
    | none => fun _ _ _ => 0
  let mm := sbCoriolisCN c.fargo c.Omega dt c.dx1 q1 q2 q3 x1 cell
    (sc.x1Flux k j i) (sc.x1Flux k j (i+1))
    (sc.x2Flux k j i) (sc.x2Flux k (j+1) i)
    (sc.x3Flux k j i) (sc.x3Flux (k+1) j i)
  let phic := phi x1 x2 x3
  let phir1 := phi (x1 + (1/2)*c.dx1) x2 x3
  let phil1 := phi (x1 - (1/2)*c.dx1) x2 x3
  let e1 := dtodx1 * ((sc.x1Flux k j i).d * (phic - phil1) +
                      (sc.x1Flux k j (i+1)).d * (phir1 - phic))
  let phir2 := phi x1 (x2 + (1/2)*c.dx2) x3
  let phil2 := phi x1 (x2 - (1/2)*c.dx2) x3
  let e2 := dtodx2 * ((sc.x2Flux k j i).d * (phic - phil2) +
                      (sc.x2Flux k (j+1) i).d * (phir2 - phic))
  let phir3 := phi x1 x2 (x3 + (1/2)*c.dx3)
  let phil3 := phi x1 x2 (x3 - (1/2)*c.dx3)
  let e3 := dtodx3 * ((sc.x3Flux k j i).d * (phic - phil3) +
                      (sc.x3Flux (k+1) j i).d * (phir3 - phic))
  { cell with
    M1 := mm.1
    M2 := mm.2
    M3 := cell.M3 - dtodx3 * (phir3 - phil3) * sc.dhalf k j i
    E := if c.barotropic then cell.E else cell.E - e1 - e2 - e3 }

/-- Per-cell body of the non-shearing `StaticGravPot` branch of Step 11a
(`integrate_3d_ctu.c:1996-2026`). -/
def grav11aCell (c : Cfg K) (sc : Scratch K) (phi : K → K → K → K)
    (dt : K) (k j i : ℤ) (cell : Gas K) : Gas K :=
  let dtodx1 := dt / c.dx1
  let dtodx2 := dt / c.dx2
  let dtodx3 := dt / c.dx3
  let x1 := c.x1pos i
  let x2 := c.x2pos j
  let x3 := c.x3pos k
  let phic := phi x1 x2 x3
  let phir1 := phi (x1 + (1/2)*c.dx1) x2 x3
  let phil1 := phi (x1 - (1/2)*c.dx1) x2 x3
  let e1 := dtodx1 * ((sc.x1Flux k j i).d * (phic - phil1) +
                      (sc.x1Flux k j (i+1)).d * (phir1 - phic))
  let phir2 := phi x1 (x2 + (1/2)*c.dx2) x3
  let phil2 := phi x1 (x2 - (1/2)*c.dx2) x3
  let e2 := dtodx2 * ((sc.x2Flux k j i).d * (phic - phil2) +
                      (sc.x2Flux k (j+1) i).d * (phir2 - phic))
  let phir3 := phi x1 x2 (x3 + (1/2)*c.dx3)
  let phil3 := phi x1 x2 (x3 - (1/2)*c.dx3)
  let e3 := dtodx3 * ((sc.x3Flux k j i).d * (phic - phil3) +
                      (sc.x3Flux (k+1) j i).d * (phir3 - phic))
  { cell with
    M1 := cell.M1 - dtodx1 * (phir1 - phil1) * sc.dhalf k j i
    M2 := cell.M2 - dtodx2 * (phir2 - phil2) * sc.dhalf k j i
    M3 := cell.M3 - dtodx3 * (phir3 - phil3) * sc.dhalf k j i
    E := if c.barotropic then cell.E else cell.E - e1 - e2 - e3 }

/-- Step 11a (`integrate_3d_ctu.c:1913-2027`): under SHEARING_BOX the
Crank-Nicholson block, otherwise the static-potential block when the
callback is configured; interior cells only. -/
def step11a (c : Cfg K) (sc : Scratch K) (g : GridState K) : GridState K :=
  { g with
    U := fun k j i =>
      if c.shearingBox then
        if interior c k j i then sb11aCell c sc g.dt k j i (g.U k j i)
        else g.U k j i
      else
        match c.staticGravPot with
        | some phi =>
          if interior c k j i then grav11aCell c sc phi g.dt k j i (g.U k j i)
          else g.U k j i
        | none => g.U k j i }

/-- Per-cell body of the self-gravity `(d/dx1)` loop of Step 11b
(`integrate_3d_ctu.c:2038-2079`). -/
def selfg1Cell (c : Cfg K) (sc : Scratch K) (Phi : Arr3 K) (dt : K)
    (k j i : ℤ) (cell : Gas K) : Gas K :=
  let dx1i := 1 / c.dx1
  let dx2i := 1 / c.dx2
  let dx3i := 1 / c.dx3
  let dtodx1 := dt / c.dx1
  let phic := Phi k j i
  let phil := (1/2) * (Phi k j (i-1) + Phi k j i)
  let phir := (1/2) * (Phi k j i + Phi k j (i+1))
  let gxl := (Phi k j (i-1) - Phi k j i) * dx1i
  let gxr := (Phi k j i - Phi k j (i+1)) * dx1i
  let gyl := (1/4) * ((Phi k (j-1) (i-1) - Phi k (j+1) (i-1)) +
                      (Phi k (j-1) i - Phi k (j+1) i)) * dx2i
  let gyr := (1/4) * ((Phi k (j-1) i - Phi k (j+1) i) +
                      (Phi k (j-1) (i+1) - Phi k (j+1) (i+1))) * dx2i
  let gzl := (1/4) * ((Phi (k-1) j (i-1) - Phi (k+1) j (i-1)) +
                      (Phi (k-1) j i - Phi (k+1) j i)) * dx3i
  let gzr := (1/4) * ((Phi (k-1) j i - Phi (k+1) j i) +
                      (Phi (k-1) j (i+1) - Phi (k+1) j (i+1))) * dx3i
  let flxm1l := (1/2) * (gxl*gxl - gyl*gyl - gzl*gzl) / c.fourPiG
              + c.gravMeanRho * phil
  let flxm1r := (1/2) * (gxr*gxr - gyr*gyr - gzr*gzr) / c.fourPiG
              + c.gravMeanRho * phir
  let flxm2l := gxl * gyl / c.fourPiG
  let flxm2r := gxr * gyr / c.fourPiG
  let flxm3l := gxl * gzl / c.fourPiG
  let flxm3r := gxr * gzr / c.fourPiG
  { cell with
    M1 := cell.M1 - dtodx1 * (flxm1r - flxm1l)
    M2 := cell.M2 - dtodx1 * (flxm2r - flxm2l)
    M3 := cell.M3 - dtodx1 * (flxm3r - flxm3l)
    E := if c.barotropic then cell.E else
      cell.E - dtodx1 * ((sc.x1Flux k j i).d * (phic - phil) +
                         (sc.x1Flux k j (i+1)).d * (phir - phic)) }

/-- Per-cell body of the self-gravity `(d/dx2)` loop of Step 11b
(`integrate_3d_ctu.c:2083-2124`). -/
def selfg2Cell (c : Cfg K) (sc : Scratch K) (Phi : Arr3 K) (dt : K)
    (k j i : ℤ) (cell : Gas K) : Gas K :=
  let dx1i := 1 / c.dx1
  let dx2i := 1 / c.dx2
  let dx3i := 1 / c.dx3
  let dtodx2 := dt / c.dx2
  let phic := Phi k j i
  let phil := (1/2) * (Phi k (j-1) i + Phi k j i)
  let phir := (1/2) * (Phi k j i + Phi k (j+1) i)
  let gxl := (1/4) * ((Phi k (j-1) (i-1) - Phi k (j-1) (i+1)) +
                      (Phi k j (i-1) - Phi k j (i+1))) * dx1i
  let gxr := (1/4) * ((Phi k j (i-1) - Phi k j (i+1)) +
                      (Phi k (j+1) (i-1) - Phi k (j+1) (i+1))) * dx1i
  let gyl := (Phi k (j-1) i - Phi k j i) * dx2i
  let gyr := (Phi k j i - Phi k (j+1) i) * dx2i
  let gzl := (1/4) * ((Phi (k-1) (j-1) i - Phi (k+1) (j-1) i) +
                      (Phi (k-1) j i - Phi (k+1) j i)) * dx3i
  let gzr := (1/4) * ((Phi (k-1) j i - Phi (k+1) j i) +
                      (Phi (k-1) (j+1) i - Phi (k+1) (j+1) i)) * dx3i
  let flxm1l := gyl * gxl / c.fourPiG
  let flxm1r := gyr * gxr / c.fourPiG
  let flxm2l := (1/2) * (gyl*gyl - gxl*gxl - gzl*gzl) / c.fourPiG
              + c.gravMeanRho * phil
  let flxm2r := (1/2) * (gyr*gyr - gxr*gxr - gzr*gzr) / c.fourPiG
              + c.gravMeanRho * phir
  let flxm3l := gyl * gzl / c.fourPiG
  let flxm3r := gyr * gzr / c.fourPiG
  { cell with
    M1 := cell.M1 - dtodx2 * (flxm1r - flxm1l)
    M2 := cell.M2 - dtodx2 * (flxm2r - flxm2l)
    M3 := cell.M3 - dtodx2 * (flxm3r - flxm3l)
    E := if c.barotropic then cell.E else
      cell.E - dtodx2 * ((sc.x2Flux k j i).d * (phic - phil) +
                         (sc.x2Flux k (j+1) i).d * (phir - phic)) }

/-- Per-cell body of the self-gravity `(d/dx3)` loop of Step 11b
(`integrate_3d_ctu.c:2128-2169`). -/
def selfg3Cell (c : Cfg K) (sc : Scratch K) (Phi : Arr3 K) (dt : K)
    (k j i : ℤ) (cell : Gas K) : Gas K :=
  let dx1i := 1 / c.dx1
  let dx2i := 1 / c.dx2
  let dx3i := 1 / c.dx3
  let dtodx3 := dt / c.dx3
  let phic := Phi k j i
  let phil := (1/2) * (Phi (k-1) j i + Phi k j i)
  let phir := (1/2) * (Phi k j i + Phi (k+1) j i)
  let gxl := (1/4) * ((Phi (k-1) j (i-1) - Phi (k-1) j (i+1)) +
                      (Phi k j (i-1) - Phi k j (i+1))) * dx1i
  let gxr := (1/4) * ((Phi k j (i-1) - Phi k j (i+1)) +
                      (Phi (k+1) j (i-1) - Phi (k+1) j (i+1))) * dx1i
  let gyl := (1/4) * ((Phi (k-1) (j-1) i - Phi (k-1) (j+1) i) +
                      (Phi k (j-1) i - Phi k (j+1) i)) * dx2i
  let gyr := (1/4) * ((Phi k (j-1) i - Phi k (j+1) i) +
                      (Phi (k+1) (j-1) i - Phi (k+1) (j+1) i)) * dx2i
  let gzl := (Phi (k-1) j i - Phi k j i) * dx3i
  let gzr := (Phi k j i - Phi (k+1) j i) * dx3i
  let flxm1l := gzl * gxl / c.fourPiG
  let flxm1r := gzr * gxr / c.fourPiG
  let flxm2l := gzl * gyl / c.fourPiG
  let flxm2r := gzr * gyr / c.fourPiG
  let flxm3l := (1/2) * (gzl*gzl - gxl*gxl - gyl*gyl) / c.fourPiG
              + c.gravMeanRho * phil
  let flxm3r := (1/2) * (gzr*gzr - gxr*gxr - gyr*gyr) / c.fourPiG
              + c.gravMeanRho * phir
  { cell with
    M1 := cell.M1 - dtodx3 * (flxm1r - flxm1l)
    M2 := cell.M2 - dtodx3 * (flxm2r - flxm2l)
    M3 := cell.M3 - dtodx3 * (flxm3r - flxm3l)
    E := if c.barotropic then cell.E else
      cell.E - dtodx3 * ((sc.x3Flux k j i).d * (phic - phil) +
                         (sc.x3Flux (k+1) j i).d * (phir - phic)) }

/-- Step 11b `(d/dx1)` loop, gated on SELF_GRAVITY, interior cells only. -/
def step11b1 (c : Cfg K) (sc : Scratch K) (g : GridState K) : GridState K :=
  { g with
    U := fun k j i =>
      if c.selfGravity ∧ interior c k j i then
        selfg1Cell c sc g.Phi g.dt k j i (g.U k j i)
      else g.U k j i }

/-- Step 11b `(d/dx2)` loop. -/
def step11b2 (c : Cfg K) (sc : Scratch K) (g : GridState K) : GridState K :=
  { g with
    U := fun k j i =>
      if c.selfGravity ∧ interior c k j i then
        selfg2Cell c sc g.Phi g.dt k j i (g.U k j i)
      else g.U k j i }

/-- Step 11b `(d/dx3)` loop. -/
def step11b3 (c : Cfg K) (sc : Scratch K) (g : GridState K) : GridState K :=
  { g with
    U := fun k j i =>
      if c.selfGravity ∧ interior c k j i then
        selfg3Cell c sc g.Phi g.dt k j i (g.U k j i)
      else g.U k j i }

/-- Step 11b mass-flux save (`integrate_3d_ctu.c:2173-2181`): stores the
second-sweep mass fluxes over `is..ie+1, js..je+1, ks..ke+1`, gated on
SELF_GRAVITY. -/
def step11bSave (c : Cfg K) (sc : Scratch K) (g : GridState K) :
    GridState K :=
  let inSave : ℤ → ℤ → ℤ → Prop := fun k j i =>
    c.kL ≤ k ∧ k ≤ c.kR + 1 ∧ c.jL ≤ j ∧ j ≤ c.jR + 1 ∧
    c.iL ≤ i ∧ i ≤ c.iR + 1
  { g with
    x1MassFlux := fun k j i =>
      if c.selfGravity ∧ inSave k j i then (sc.x1Flux k j i).d
      else g.x1MassFlux k j i
    x2MassFlux := fun k j i =>
      if c.selfGravity ∧ inSave k j i then (sc.x2Flux k j i).d
      else g.x2MassFlux k j i
    x3MassFlux := fun k j i =>
      if c.selfGravity ∧ inSave k j i then (sc.x3Flux k j i).d
      else g.x3MassFlux k j i }

/-- Step 11c (`integrate_3d_ctu.c:2188-2199`): optically thin cooling on the
half-step density and pressure, absent under BAROTROPIC or a NULL callback. -/
def step11c (c : Cfg K) (sc : Scratch K) (g : GridState K) : GridState K :=
  { g with
    U := fun k j i =>
      match c.coolingFunc with
      | some cf =>
        if ¬c.barotropic ∧ interior c k j i then
          { g.U k j i with
            E := (g.U k j i).E - g.dt * cf (sc.dhalf k j i) (sc.phalf k j i) g.dt }
        else g.U k j i
      | none => g.U k j i }

/-- Per-cell body of Step 12a (`integrate_3d_ctu.c:2210-2221`): x1-flux
divergence with the identity component map. -/
def flux12aCell (barotropic : Bool) (dtodx1 : K) (f1l f1r : Cons1D K)
    (cell : Gas K) : Gas K :=
  { cell with
    d := cell.d - dtodx1 * (f1r.d - f1l.d)
    M1 := cell.M1 - dtodx1 * (f1r.Mx - f1l.Mx)
    M2 := cell.M2 - dtodx1 * (f1r.My - f1l.My)
    M3 := cell.M3 - dtodx1 * (f1r.Mz - f1l.Mz)
    E := if barotropic then cell.E else cell.E - dtodx1 * (f1r.E - f1l.E)
    s := fun n => cell.s n - dtodx1 * (f1r.s n - f1l.s n) }

/-- Per-cell body of Step 12b (`integrate_3d_ctu.c:2233-2243`): x2-flux
divergence with the x2-sweep component permutation. -/
def flux12bCell (barotropic : Bool) (dtodx2 : K) (f2l f2r : Cons1D K)
    (cell : Gas K) : Gas K :=
  { cell with
    d := cell.d - dtodx2 * (f2r.d - f2l.d)
    M1 := cell.M1 - dtodx2 * (f2r.Mz - f2l.Mz)
    M2 := cell.M2 - dtodx2 * (f2r.Mx - f2l.Mx)
    M3 := cell.M3 - dtodx2 * (f2r.My - f2l.My)
    E := if barotropic then cell.E else cell.E - dtodx2 * (f2r.E - f2l.E)
    s := fun n => cell.s n - dtodx2 * (f2r.s n - f2l.s n) }

/-- Per-cell body of Step 12c (`integrate_3d_ctu.c:2256-2266`): x3-flux
divergence with the x3-sweep component permutation. -/
def flux12cCell (barotropic : Bool) (dtodx3 : K) (f3l f3r : Cons1D K)
    (cell : Gas K) : Gas K :=
  { cell with
    d := cell.d - dtodx3 * (f3r.d - f3l.d)
    M1 := cell.M1 - dtodx3 * (f3r.My - f3l.My)
    M2 := cell.M2 - dtodx3 * (f3r.Mz - f3l.Mz)
    M3 := cell.M3 - dtodx3 * (f3r.Mx - f3l.Mx)
    E := if barotropic then cell.E else cell.E - dtodx3 * (f3r.E - f3l.E)
    s := fun n => cell.s n - dtodx3 * (f3r.s n - f3l.s n) }

/-- Step 12a over the interior cells. -/
def step12a (c : Cfg K) (sc : Scratch K) (g : GridState K) : GridState K :=
  { g with
    U := fun k j i =>
      if interior c k j i then
        flux12aCell c.barotropic (g.dt/c.dx1)
          (sc.x1Flux k j i) (sc.x1Flux k j (i+1)) (g.U k j i)
      else g.U k j i }

/-- Step 12b over the interior cells. -/
def step12b (c : Cfg K) (sc : Scratch K) (g : GridState K) : GridState K :=
  { g with
    U := fun k j i =>
      if interior c k j i then
        flux12bCell c.barotropic (g.dt/c.dx2)
          (sc.x2Flux k j i) (sc.x2Flux k (j+1) i) (g.U k j i)
      else g.U k j i }

/-- Step 12c over the interior cells. -/
def step12c (c : Cfg K) (sc : Scratch K) (g : GridState K) : GridState K :=
  { g with
    U := fun k j i =>
      if interior c k j i then
        flux12cCell c.barotropic (g.dt/c.dx3)
          (sc.x3Flux k j i) (sc.x3Flux (k+1) j i) (g.U k j i)
      else g.U k j i }

/-- Step 12d (`integrate_3d_ctu.c:2277-2287`), the last phase of the step:
cell-centered fields are set to the average of the bracketing (already
updated) interface fields, interior cells only. -/
def step12d (c : Cfg K) (g : GridState K) : GridState K :=
  { g with
    U := fun k j i =>
      if interior c k j i then
        { g.U k j i with
          B1c := (1/2) * (g.B1i k j i + g.B1i k j (i+1))
          B2c := (1/2) * (g.B2i k j i + g.B2i k (j+1) i)
          B3c := (1/2) * (g.B3i k j i + g.B3i (k+1) j i) }
      else g.U k j i }

/-- The complete grid-writing tail of one `integrate_3d_ctu` call, in the
source's phase order: 10b, 11a, 11b (three loops + mass-flux save), 11c,
12a, 12b, 12c, 12d. -/
def ctuTail (c : Cfg K) (sc : Scratch K) (g : GridState K) : GridState K :=
  step12d c (step12c c sc (step12b c sc (step12a c sc
    (step11c c sc (step11bSave c sc (step11b3 c sc (step11b2 c sc
      (step11b1 c sc (step11a c sc (step10b c sc g))))))))))

/-! ### Frame lemmas for the grid-writing phases -/

theorem step11a_U_out (c : Cfg K) (sc : Scratch K) (g : GridState K)
    (k j i : ℤ) (h : ¬ interior c k j i) :
    (step11a c sc g).U k j i = g.U k j i := by
  unfold step11a
  rcases c.staticGravPot with _ | phi <;> dsimp only <;>
    split_ifs <;> rfl

theorem step11b1_U_out (c : Cfg K) (sc : Scratch K) (g : GridState K)
    (k j i : ℤ) (h : ¬ interior c k j i) :
    (step11b1 c sc g).U k j i = g.U k j i := by
  unfold step11b1
  exact if_neg fun hc => h hc.2

theorem step11b2_U_out (c : Cfg K) (sc : Scratch K) (g : GridState K)
    (k j i : ℤ) (h : ¬ interior c k j i) :
    (step11b2 c sc g).U k j i = g.U k j i := by
  unfold step11b2
  exact if_neg fun hc => h hc.2

theorem step11b3_U_out (c : Cfg K) (sc : Scratch K) (g : GridState K)
    (k j i : ℤ) (h : ¬ interior c k j i) :
    (step11b3 c sc g).U k j i = g.U k j i := by
  unfold step11b3
  exact if_neg fun hc => h hc.2

theorem step11c_U_out (c : Cfg K) (sc : Scratch K) (g : GridState K)
    (k j i : ℤ) (h : ¬ interior c k j i) :
    (step11c c sc g).U k j i = g.U k j i := by
  unfold step11c
  rcases c.coolingFunc with _ | cf <;> dsimp only <;> split_ifs with hc
  · exact absurd hc.2 h
  · rfl

theorem step12a_U_out (c : Cfg K) (sc : Scratch K) (g : GridState K)
    (k j i : ℤ) (h : ¬ interior c k j i) :
    (step12a c sc g).U k j i = g.U k j i := by
  unfold step12a
  exact if_neg h

theorem step12b_U_out (c : Cfg K) (sc : Scratch K) (g : GridState K)
    (k j i : ℤ) (h : ¬ interior c k j i) :
    (step12b c sc g).U k j i = g.U k j i := by
  unfold step12b
  exact if_neg h

theorem step12c_U_out (c : Cfg K) (sc : Scratch K) (g : GridState K)
    (k j i : ℤ) (h : ¬ interior c k j i) :
    (step12c c sc g).U k j i = g.U k j i := by
  unfold step12c
  exact if_neg h

theorem step12d_U_out (c : Cfg K) (g : GridState K)
    (k j i : ℤ) (h : ¬ interior c k j i) :
    (step12d c g).U k j i = g.U k j i := by
  unfold step12d
  exact if_neg h

/-- C10: a call to `integrate_3d_ctu` never modifies `pG->dt`, `pG->time` or
`pG->Phi`; it writes the conserved cell state `U` only at interior indices,
and the persistent face fields only on `B1i[ks..ke][js..je][is..ie+1]`,
`B2i[ks..ke][js..je+1][is..ie]`, `B3i[ks..ke+1][js..je][is..ie]`, so all
ghost-cell conserved states and all other ghost face fields are unchanged.
(Steps 1-9 write no grid member; the grid-writing tail is `ctuTail`.) -/
theorem C10_frame_effects (c : Cfg K) (sc : Scratch K) (g : GridState K) :
    (ctuTail c sc g).dt = g.dt ∧
    (ctuTail c sc g).time = g.time ∧
    (ctuTail c sc g).Phi = g.Phi ∧
    (∀ k j i, ¬ interior c k j i → (ctuTail c sc g).U k j i = g.U k j i) ∧
    (∀ k j i, ¬ (c.kL ≤ k ∧ k ≤ c.kR ∧ c.jL ≤ j ∧ j ≤ c.jR ∧
                 c.iL ≤ i ∧ i ≤ c.iR + 1) →
       (ctuTail c sc g).B1i k j i = g.B1i k j i) ∧
    (∀ k j i, ¬ (c.kL ≤ k ∧ k ≤ c.kR ∧ c.jL ≤ j ∧ j ≤ c.jR + 1 ∧
                 c.iL ≤ i ∧ i ≤ c.iR) →
       (ctuTail c sc g).B2i k j i = g.B2i k j i) ∧
    (∀ k j i, ¬ (c.kL ≤ k ∧ k ≤ c.kR + 1 ∧ c.jL ≤ j ∧ j ≤ c.jR ∧
                 c.iL ≤ i ∧ i ≤ c.iR) →
       (ctuTail c sc g).B3i k j i = g.B3i k j i) := by
  refine ⟨rfl, rfl, rfl, ?_, ?_, ?_, ?_⟩
  · intro k j i h
    show (step12d c _).U k j i = g.U k j i
    rw [step12d_U_out _ _ _ _ _ h, step12c_U_out _ _ _ _ _ _ h,
      step12b_U_out _ _ _ _ _ _ h, step12a_U_out _ _ _ _ _ _ h,
      step11c_U_out _ _ _ _ _ _ h]
    show (step11b3 c sc _).U k j i = g.U k j i
    rw [step11b3_U_out _ _ _ _ _ _ h, step11b2_U_out _ _ _ _ _ _ h,
      step11b1_U_out _ _ _ _ _ _ h, step11a_U_out _ _ _ _ _ _ h]
    rfl
  · intro k j i h
    show ctB1i g.B1i sc.emf2 sc.emf3 (g.dt/c.dx2) (g.dt/c.dx3)
      c.iL c.iR c.jL c.jR c.kL c.kR k j i = g.B1i k j i
    exact if_neg h
  · intro k j i h
    show ctB2i g.B2i sc.emf1 sc.emf3 (g.dt/c.dx1) (g.dt/c.dx3)
      c.iL c.iR c.jL c.jR c.kL c.kR k j i = g.B2i k j i
    exact if_neg h
  · intro k j i h
    show ctB3i g.B3i sc.emf1 sc.emf2 (g.dt/c.dx1) (g.dt/c.dx2)
      c.iL c.iR c.jL c.jR c.kL c.kR k j i = g.B3i k j i
    exact if_neg h

/-- Concrete configuration (all features enabled) for pipeline witnesses. -/
def cfgW : Cfg ℚ :=
  Cfg.mk 0 1 0 1 0 1 1 1 1 (fun _ => 0) (fun _ => 0) (fun _ => 0)
    1 1 0 (2/3) false true true true
    (some (fun _ _ _ => 0)) (some (fun _ _ _ => 0))

/-- Concrete scratch data for pipeline witnesses. -/
def scrW : Scratch ℚ :=
  Scratch.mk (fun _ _ _ => Cons1D.mk 1 0 0 0 1 0 0 (fun _ => 0))
    (fun _ _ _ => Cons1D.mk 1 0 0 0 1 0 0 (fun _ => 0))
    (fun _ _ _ => Cons1D.mk 1 0 0 0 1 0 0 (fun _ => 0))
    (fun _ _ _ => 0) (fun _ _ _ => 0) (fun _ _ _ => 0)
    (fun _ _ _ => 1) (fun _ _ _ => 1)

/-- Concrete grid state for pipeline witnesses. -/
def gridW : GridState ℚ :=
  GridState.mk (fun _ _ _ => Gas.mk 1 0 0 0 1 0 0 0 (fun _ => 0))
    (fun _ _ _ => 0) (fun _ _ _ => 0) (fun _ _ _ => 0)
    (fun _ _ _ => 0) (fun _ _ _ => 0) (fun _ _ _ => 0)
    (1/10) 0 (fun _ _ _ => 0)

/-- Witness for C10: at an index outside every write range, the state is
untouched, and `dt` is preserved. -/
theorem C10_frame_effects_witness :
    (ctuTail cfgW scrW gridW).U 9 0 0 = gridW.U 9 0 0 ∧
    (ctuTail cfgW scrW gridW).B1i 0 0 9 = gridW.B1i 0 0 9 ∧
    (ctuTail cfgW scrW gridW).dt = gridW.dt :=
  ⟨(C10_frame_effects cfgW scrW gridW).2.2.2.1 9 0 0 (by decide),
   (C10_frame_effects cfgW scrW gridW).2.2.2.2.1 0 0 9 (by decide),
   (C10_frame_effects cfgW scrW gridW).1⟩

/-- Step 12d sets each cell-centered field component to the arithmetic mean
of the two bracketing interface-field values of the state it acts on. -/
theorem step12d_avg (c : Cfg K) (g : GridState K) (k j i : ℤ)
    (h : interior c k j i) :
    ((step12d c g).U k j i).B1c = (1/2) * (g.B1i k j i + g.B1i k j (i+1)) ∧
    ((step12d c g).U k j i).B2c = (1/2) * (g.B2i k j i + g.B2i k (j+1) i) ∧
    ((step12d c g).U k j i).B3c = (1/2) * (g.B3i k j i + g.B3i (k+1) j i) := by
  unfold step12d
  dsimp only
  rw [if_pos h]
  exact ⟨rfl, rfl, rfl⟩

/-- C2: at the end of every completed `integrate_3d_ctu` call, for every
interior cell the cell-centered field equals the arithmetic mean of its two
bracketing (final) face fields; the averaging (Step 12d) is the last phase,
and no later operation modifies `B?c` or `B?i`. -/
theorem C2_cell_centered_field_is_face_average
    (c : Cfg K) (sc : Scratch K) (g : GridState K) (k j i : ℤ)
    (h : interior c k j i) :
    ((ctuTail c sc g).U k j i).B1c =
      (1/2) * ((ctuTail c sc g).B1i k j i + (ctuTail c sc g).B1i k j (i+1)) ∧
    ((ctuTail c sc g).U k j i).B2c =
      (1/2) * ((ctuTail c sc g).B2i k j i + (ctuTail c sc g).B2i k (j+1) i) ∧
    ((ctuTail c sc g).U k j i).B3c =
      (1/2) * ((ctuTail c sc g).B3i k j i + (ctuTail c sc g).B3i (k+1) j i) :=
  step12d_avg c _ k j i h

/-- Witness for C2 at a concrete interior cell. -/
theorem C2_cell_centered_field_is_face_average_witness :
    ((ctuTail cfgW scrW gridW).U 0 0 0).B1c =
      (1/2) * ((ctuTail cfgW scrW gridW).B1i 0 0 0 +
               (ctuTail cfgW scrW gridW).B1i 0 0 1) :=
  (C2_cell_centered_field_is_face_average cfgW scrW gridW 0 0 0
    (by decide)).1

/-! ### Density/scalar bookkeeping through the tail phases (for C8) -/

theorem step10b_U (c : Cfg K) (sc : Scratch K) (g : GridState K) :
    (step10b c sc g).U = g.U := rfl

theorem step11bSave_U (c : Cfg K) (sc : Scratch K) (g : GridState K) :
    (step11bSave c sc g).U = g.U := rfl

theorem step11a_ds (c : Cfg K) (sc : Scratch K) (g : GridState K)
    (k j i : ℤ) :
    ((step11a c sc g).U k j i).d = (g.U k j i).d ∧
    ((step11a c sc g).U k j i).s = (g.U k j i).s := by
  unfold step11a
  dsimp only
  rcases c.staticGravPot with _ | phi <;> dsimp only <;> split_ifs <;>
    exact ⟨rfl, rfl⟩

theorem step11b1_ds (c : Cfg K) (sc : Scratch K) (g : GridState K)
    (k j i : ℤ) :
    ((step11b1 c sc g).U k j i).d = (g.U k j i).d ∧
    ((step11b1 c sc g).U k j i).s = (g.U k j i).s := by
  unfold step11b1
  dsimp only
  split_ifs <;> exact ⟨rfl, rfl⟩

theorem step11b2_ds (c : Cfg K) (sc : Scratch K) (g : GridState K)
    (k j i : ℤ) :
    ((step11b2 c sc g).U k j i).d = (g.U k j i).d ∧
    ((step11b2 c sc g).U k j i).s = (g.U k j i).s := by
  unfold step11b2
  dsimp only
  split_ifs <;> exact ⟨rfl, rfl⟩

theorem step11b3_ds (c : Cfg K) (sc : Scratch K) (g : GridState K)
    (k j i : ℤ) :
    ((step11b3 c sc g).U k j i).d = (g.U k j i).d ∧
    ((step11b3 c sc g).U k j i).s = (g.U k j i).s := by
  unfold step11b3
  dsimp only
  split_ifs <;> exact ⟨rfl, rfl⟩

theorem step11c_ds (c : Cfg K) (sc : Scratch K) (g : GridState K)
    (k j i : ℤ) :
    ((step11c c sc g).U k j i).d = (g.U k j i).d ∧
    ((step11c c sc g).U k j i).s = (g.U k j i).s := by
  unfold step11c
  dsimp only
  rcases c.coolingFunc with _ | cf <;> dsimp only
  · exact ⟨rfl, rfl⟩
  · split_ifs <;> exact ⟨rfl, rfl⟩

theorem step12d_ds (c : Cfg K) (g : GridState K) (k j i : ℤ) :
    ((step12d c g).U k j i).d = (g.U k j i).d ∧
    ((step12d c g).U k j i).s = (g.U k j i).s := by
  unfold step12d
  dsimp only
  split_ifs <;> exact ⟨rfl, rfl⟩

theorem step12a_in (c : Cfg K) (sc : Scratch K) (g : GridState K)
    (k j i : ℤ) (h : interior c k j i) :
    (step12a c sc g).U k j i =
      flux12aCell c.barotropic (g.dt/c.dx1)
        (sc.x1Flux k j i) (sc.x1Flux k j (i+1)) (g.U k j i) := by
  unfold step12a
  dsimp only
  rw [if_pos h]

theorem step12b_in (c : Cfg K) (sc : Scratch K) (g : GridState K)
    (k j i : ℤ) (h : interior c k j i) :
    (step12b c sc g).U k j i =
      flux12bCell c.barotropic (g.dt/c.dx2)
        (sc.x2Flux k j i) (sc.x2Flux k (j+1) i) (g.U k j i) := by
  unfold step12b
  dsimp only
  rw [if_pos h]

theorem step12c_in (c : Cfg K) (sc : Scratch K) (g : GridState K)
    (k j i : ℤ) (h : interior c k j i) :
    (step12c c sc g).U k j i =
      flux12cCell c.barotropic (g.dt/c.dx3)
        (sc.x3Flux k j i) (sc.x3Flux (k+1) j i) (g.U k j i) := by
  unfold step12c
  dsimp only
  rw [if_pos h]

/-- C8: with scalars present, every passive scalar of every interior cell is
updated by exactly the same flux-divergence form as density (same index
offsets and coefficients `dt/dx_d` per axis); consequently, if every face's
scalar flux equals `lam` times its mass flux and initially `s[n] = lam*d`,
then `s[n] = lam*d` still holds after the update. -/
theorem C8_passive_scalars_advect_as_mass
    (c : Cfg K) (sc : Scratch K) (g : GridState K) (k j i : ℤ)
    (h : interior c k j i) :
    (((ctuTail c sc g).U k j i).d =
       (g.U k j i).d
       - (g.dt/c.dx1) * ((sc.x1Flux k j (i+1)).d - (sc.x1Flux k j i).d)
       - (g.dt/c.dx2) * ((sc.x2Flux k (j+1) i).d - (sc.x2Flux k j i).d)
       - (g.dt/c.dx3) * ((sc.x3Flux (k+1) j i).d - (sc.x3Flux k j i).d)) ∧
    (∀ n, ((ctuTail c sc g).U k j i).s n =
       (g.U k j i).s n
       - (g.dt/c.dx1) * ((sc.x1Flux k j (i+1)).s n - (sc.x1Flux k j i).s n)
       - (g.dt/c.dx2) * ((sc.x2Flux k (j+1) i).s n - (sc.x2Flux k j i).s n)
       - (g.dt/c.dx3) * ((sc.x3Flux (k+1) j i).s n - (sc.x3Flux k j i).s n)) ∧
    (∀ lam n,
       (g.U k j i).s n = lam * (g.U k j i).d →
       (sc.x1Flux k j i).s n = lam * (sc.x1Flux k j i).d →
       (sc.x1Flux k j (i+1)).s n = lam * (sc.x1Flux k j (i+1)).d →
       (sc.x2Flux k j i).s n = lam * (sc.x2Flux k j i).d →
       (sc.x2Flux k (j+1) i).s n = lam * (sc.x2Flux k (j+1) i).d →
       (sc.x3Flux k j i).s n = lam * (sc.x3Flux k j i).d →
       (sc.x3Flux (k+1) j i).s n = lam * (sc.x3Flux (k+1) j i).d →
       ((ctuTail c sc g).U k j i).s n =
         lam * ((ctuTail c sc g).U k j i).d) := by
  set g0 := step10b c sc g with hg0
  set g1 := step11a c sc g0 with hg1
  set g2 := step11b1 c sc g1 with hg2
  set g3 := step11b2 c sc g2 with hg3
  set g4 := step11b3 c sc g3 with hg4
  set g5 := step11bSave c sc g4 with hg5
  set g6 := step11c c sc g5 with hg6
  set g7 := step12a c sc g6 with hg7
  set g8 := step12b c sc g7 with hg8
  set g9 := step12c c sc g8 with hg9
  have hctu : ctuTail c sc g = step12d c g9 := rfl
  have hd6 : (g6.U k j i).d = (g.U k j i).d := by
    rw [hg6, (step11c_ds c sc g5 k j i).1, hg5, step11bSave_U,
      hg4, (step11b3_ds c sc g3 k j i).1, hg3, (step11b2_ds c sc g2 k j i).1,
      hg2, (step11b1_ds c sc g1 k j i).1, hg1, (step11a_ds c sc g0 k j i).1,
      hg0, step10b_U]
  have hs6 : (g6.U k j i).s = (g.U k j i).s := by
    rw [hg6, (step11c_ds c sc g5 k j i).2, hg5, step11bSave_U,
      hg4, (step11b3_ds c sc g3 k j i).2, hg3, (step11b2_ds c sc g2 k j i).2,
      hg2, (step11b1_ds c sc g1 k j i).2, hg1, (step11a_ds c sc g0 k j i).2,
      hg0, step10b_U]
  have hdflux : ((step12d c g9).U k j i).d =
      (g.U k j i).d
      - (g.dt/c.dx1) * ((sc.x1Flux k j (i+1)).d - (sc.x1Flux k j i).d)
      - (g.dt/c.dx2) * ((sc.x2Flux k (j+1) i).d - (sc.x2Flux k j i).d)
      - (g.dt/c.dx3) * ((sc.x3Flux (k+1) j i).d - (sc.x3Flux k j i).d) := by
    rw [(step12d_ds c g9 k j i).1, hg9, step12c_in c sc g8 k j i h,
      hg8, step12b_in c sc g7 k j i h, hg7, step12a_in c sc g6 k j i h]
    show (g6.U k j i).d
        - (g6.dt/c.dx1) * ((sc.x1Flux k j (i+1)).d - (sc.x1Flux k j i).d)
        - (g6.dt/c.dx2) * ((sc.x2Flux k (j+1) i).d - (sc.x2Flux k j i).d)
        - (g6.dt/c.dx3) * ((sc.x3Flux (k+1) j i).d - (sc.x3Flux k j i).d) = _
    rw [hd6]
    rfl
  have hsflux : ∀ n, ((step12d c g9).U k j i).s n =
      (g.U k j i).s n
      - (g.dt/c.dx1) * ((sc.x1Flux k j (i+1)).s n - (sc.x1Flux k j i).s n)
      - (g.dt/c.dx2) * ((sc.x2Flux k (j+1) i).s n - (sc.x2Flux k j i).s n)
      - (g.dt/c.dx3) * ((sc.x3Flux (k+1) j i).s n - (sc.x3Flux k j i).s n) := by
    intro n
    rw [(step12d_ds c g9 k j i).2, hg9, step12c_in c sc g8 k j i h,
      hg8, step12b_in c sc g7 k j i h, hg7, step12a_in c sc g6 k j i h]
    show (g6.U k j i).s n
        - (g6.dt/c.dx1) * ((sc.x1Flux k j (i+1)).s n - (sc.x1Flux k j i).s n)
        - (g6.dt/c.dx2) * ((sc.x2Flux k (j+1) i).s n - (sc.x2Flux k j i).s n)
        - (g6.dt/c.dx3) * ((sc.x3Flux (k+1) j i).s n - (sc.x3Flux k j i).s n)
      = _
    rw [hs6]
    rfl
  refine ⟨by rw [hctu, hdflux], fun n => by rw [hctu, hsflux n], ?_⟩
  intro lam n h0 h1l h1r h2l h2r h3l h3r
  rw [hctu, hsflux n, hdflux, h0, h1l, h1r, h2l, h2r, h3l, h3r]
  ring

/-- Scratch data with scalar fluxes equal to twice the mass fluxes. -/
def scrW2 : Scratch ℚ :=
  Scratch.mk (fun _ _ _ => Cons1D.mk 1 0 0 0 1 0 0 (fun _ => 2))
    (fun _ _ _ => Cons1D.mk 1 0 0 0 1 0 0 (fun _ => 2))
    (fun _ _ _ => Cons1D.mk 1 0 0 0 1 0 0 (fun _ => 2))
    (fun _ _ _ => 0) (fun _ _ _ => 0) (fun _ _ _ => 0)
    (fun _ _ _ => 1) (fun _ _ _ => 1)

/-- Grid state with `s[n] = 2*d` in every cell. -/
def gridW2 : GridState ℚ :=
  GridState.mk (fun _ _ _ => Gas.mk 1 0 0 0 1 0 0 0 (fun _ => 2))
    (fun _ _ _ => 0) (fun _ _ _ => 0) (fun _ _ _ => 0)
    (fun _ _ _ => 0) (fun _ _ _ => 0) (fun _ _ _ => 0)
    (1/10) 0 (fun _ _ _ => 0)

/-- Witness for C8: concrete interior cell, `lam = 2`, proportional data. -/
theorem C8_passive_scalars_advect_as_mass_witness :
    ((ctuTail cfgW scrW2 gridW2).U 0 0 0).s 0 =
      2 * ((ctuTail cfgW scrW2 gridW2).U 0 0 0).d :=
  (C8_passive_scalars_advect_as_mass cfgW scrW2 gridW2 0 0 0
    (by decide)).2.2 2 0 (by norm_num [gridW2]) (by norm_num [scrW2])
    (by norm_num [scrW2]) (by norm_num [scrW2]) (by norm_num [scrW2])
    (by norm_num [scrW2]) (by norm_num [scrW2])

/-! ### `integrate_init_3d` (`integrate_3d_ctu.c:2349-2440`)

The allocator (`calloc_3d_array`/`malloc`), `ath_error`, and the
`integrate_destruct` dispatcher are external collaborators.  Modelled from
the spec: an allocation request may fail (oracle `ℕ → Bool` gives the
outcome of the n-th request); `ath_error` aborts the process with its
diagnostic message (an aborting run is an `Except.error` carrying the
message); `integrate_destruct` invokes `integrate_destruct_3d`
(`integrate_3d_ctu.c:2296-2343`), which frees every scratch array it knows
about, embedded here as the freed-name list `destructNames`. -/

/-- The scratch arrays allocated by `integrate_init_3d`. -/
inductive ArrName where
  | emf1A | emf2A | emf3A | emf1ccA | emf2ccA | emf3ccA
  | eta1A | eta2A | eta3A
  | bxcA | bxiA | b1faceA | b2faceA | b3faceA
  | u1dA | wA | wlA | wrA
  | ulx1A | urx1A | ulx2A | urx2A | ulx3A | urx3A
  | x1fluxA | x2fluxA | x3fluxA
  | dhalfA | phalfA
  | remapEyiibA | remapEyoibA
deriving DecidableEq, Repr

/-- Requested dimensions of one allocation: 3D `calloc_3d_array(n3,n2,n1)`,
2D `calloc_2d_array(n3,n2)`, or a 1D `malloc` of `n` elements. -/
inductive Dims where
  | d3 (n3 n2 n1 : ℕ)
  | d2 (n3 n2 : ℕ)
  | d1 (n : ℕ)
deriving DecidableEq, Repr

/-- One allocation request: which array, with which dimensions. -/
structure AllocRec where
  name : ArrName
  dims : Dims
deriving DecidableEq, Repr

/-- The allocation requests of `integrate_init_3d`, in source order, for the
configuration `(mhd, hcorr, sb, hasSrc)` where `hasSrc` models
`StaticGravPot != NULL || CoolingFunc != NULL`. -/
def allocPlan (mhd hcorr sb hasSrc : Bool) (nx1 nx2 nx3 nghost : ℕ) :
    List AllocRec :=
  let Nx1 := nx1 + 2*nghost
  let Nx2 := nx2 + 2*nghost
  let Nx3 := nx3 + 2*nghost
  let nmax := max (max Nx1 Nx2) Nx3
  let t3 : Dims := .d3 Nx3 Nx2 Nx1
  (if mhd then
    [⟨.emf1A, t3⟩, ⟨.emf2A, t3⟩, ⟨.emf3A, t3⟩,
     ⟨.emf1ccA, t3⟩, ⟨.emf2ccA, t3⟩, ⟨.emf3ccA, t3⟩] else []) ++
  (if hcorr then [⟨.eta1A, t3⟩, ⟨.eta2A, t3⟩, ⟨.eta3A, t3⟩] else []) ++
  (if mhd then
    [⟨.bxcA, .d1 nmax⟩, ⟨.bxiA, .d1 nmax⟩,
     ⟨.b1faceA, t3⟩, ⟨.b2faceA, t3⟩, ⟨.b3faceA, t3⟩] else []) ++
  [⟨.u1dA, .d1 nmax⟩, ⟨.wA, .d1 nmax⟩, ⟨.wlA, .d1 nmax⟩, ⟨.wrA, .d1 nmax⟩,
   ⟨.ulx1A, t3⟩, ⟨.urx1A, t3⟩, ⟨.ulx2A, t3⟩, ⟨.urx2A, t3⟩,
   ⟨.ulx3A, t3⟩, ⟨.urx3A, t3⟩,
   ⟨.x1fluxA, t3⟩, ⟨.x2fluxA, t3⟩, ⟨.x3fluxA, t3⟩] ++
  (if mhd || hasSrc then [⟨.dhalfA, t3⟩, ⟨.phalfA, t3⟩] else []) ++
  (if sb then [⟨.remapEyiibA, .d2 Nx3 Nx2⟩, ⟨.remapEyoibA, .d2 Nx3 Nx2⟩]
   else [])

/-- The arrays freed by `integrate_destruct_3d`
(`integrate_3d_ctu.c:2296-2343`), each behind its non-NULL check, under the
same conditional compilation as the allocations. -/
def destructNames (mhd hcorr sb : Bool) : List ArrName :=
  (if mhd then [.emf1A, .emf2A, .emf3A, .emf1ccA, .emf2ccA, .emf3ccA]
   else []) ++
  (if hcorr then [.eta1A, .eta2A, .eta3A] else []) ++
  (if mhd then [.bxcA, .bxiA, .b1faceA, .b2faceA, .b3faceA] else []) ++
  [.u1dA, .wA, .wlA, .wrA,
   .ulx1A, .urx1A, .ulx2A, .urx2A, .ulx3A, .urx3A,
   .x1fluxA, .x2fluxA, .x3fluxA, .dhalfA, .phalfA] ++
  (if sb then [.remapEyiibA, .remapEyoibA] else [])

/-- The single diagnostic printed by `ath_error` at
`integrate_3d_ctu.c:2439`, identical for every failing allocation. -/
def fatalMsg : String := "[integrate_init]: malloc returned a NULL pointer\n"

/-- Runs the allocation requests in order.  A failing request takes the
`on_error` path: `integrate_destruct()` frees every already-allocated array
whose name it knows, then `ath_error(fatalMsg)` aborts; the error payload
is the message together with the arrays left unfreed (leaked). -/
def runAllocs (oracle : ℕ → Bool) (freeNames : List ArrName) :
    ℕ → List AllocRec → List AllocRec →
    Except (String × List AllocRec) (List AllocRec)
  | _, acc, [] => .ok acc
  | n, acc, r :: rest =>
    if oracle n then runAllocs oracle freeNames (n+1) (acc ++ [r]) rest
    else .error (fatalMsg, acc.filter fun a => !(freeNames.contains a.name))

/-- Model of `integrate_init_3d(nx1,nx2,nx3)` under allocation oracle `oracle`. -/
def integrate_init_3d (mhd hcorr sb hasSrc : Bool)
    (nx1 nx2 nx3 nghost : ℕ) (oracle : ℕ → Bool) :
    Except (String × List AllocRec) (List AllocRec) :=
  runAllocs oracle (destructNames mhd hcorr sb) 0 []
    (allocPlan mhd hcorr sb hasSrc nx1 nx2 nx3 nghost)

theorem runAllocs_error (oracle : ℕ → Bool) (freeNames : List ArrName) :
    ∀ (plan : List AllocRec) (n : ℕ) (acc : List AllocRec)
      (e : String × List AllocRec),
      (∀ r ∈ acc, freeNames.contains r.name = true) →
      (∀ r ∈ plan, freeNames.contains r.name = true) →
      runAllocs oracle freeNames n acc plan = .error e →
      e.1 = fatalMsg ∧ e.2 = [] := by
  intro plan
  induction plan with
  | nil =>
    intro n acc e hacc hplan h
    simp [runAllocs] at h
  | cons r rest ih =>
    intro n acc e hacc hplan h
    rw [runAllocs] at h
    by_cases ho : oracle n = true
    · rw [if_pos ho] at h
      refine ih (n+1) (acc ++ [r]) e ?_ ?_ h
      · intro a ha
        rcases List.mem_append.mp ha with hL | hR
        · exact hacc a hL
        · rw [List.mem_singleton.mp hR]
          exact hplan r (List.mem_cons_self r rest)
      · intro a ha
        exact hplan a (List.mem_cons_of_mem r ha)
    · rw [if_neg ho] at h
      obtain rfl := (Except.error.injEq _ _).mp h.symm
      refine ⟨rfl, ?_⟩
      simp only [List.filter_eq_nil_iff]
      intro a ha
      simpa using hacc a ha

theorem runAllocs_ok (oracle : ℕ → Bool) (freeNames : List ArrName) :
    ∀ (plan : List AllocRec) (n : ℕ) (acc l : List AllocRec),
      runAllocs oracle freeNames n acc plan = .ok l →
      ∀ m, m < plan.length → oracle (n + m) = true := by
  intro plan
  induction plan with
  | nil =>
    intro n acc l _ m hm
    simp at hm
  | cons r rest ih =>
    intro n acc l h m hm
    rw [runAllocs] at h
    by_cases ho : oracle n = true
    · rw [if_pos ho] at h
      rcases Nat.eq_zero_or_pos m with rfl | hpos
      · simpa using ho
      · have := ih (n+1) (acc ++ [r]) l h (m-1)
          (by simp at hm; omega)
        have harith : n + 1 + (m - 1) = n + m := by omega
        rwa [harith] at this
    · rw [if_neg ho] at h
      exact absurd h (by simp)

theorem allocPlan_names_freed (mhd hcorr sb hasSrc : Bool)
    (nx1 nx2 nx3 nghost : ℕ) :
    ∀ r ∈ allocPlan mhd hcorr sb hasSrc nx1 nx2 nx3 nghost,
      (destructNames mhd hcorr sb).contains r.name = true := by
  cases mhd <;> cases hcorr <;> cases sb <;> cases hasSrc <;>
  · intro r hr
    simp only [allocPlan, if_true, if_false, List.cons_append,
      List.nil_append, List.append_nil] at hr
    fin_cases hr
    all_goals rfl

/-- C9 (amended): `integrate_init_3d` requests every 3D scratch array with
dimensions `(nx3+2*nghost) x (nx2+2*nghost) x (nx1+2*nghost)`; if any
allocation fails it frees every already-allocated array and aborts the
process via `ath_error` - so it never returns normally after a failed
allocation - but the diagnostic is one fixed message naming the
initialisation routine, the same for every failing allocation. -/
theorem C9_init_alloc_sizes_and_fatal_cleanup
    (mhd hcorr sb hasSrc : Bool) (nx1 nx2 nx3 nghost : ℕ)
    (oracle : ℕ → Bool) :
    (∀ r ∈ allocPlan mhd hcorr sb hasSrc nx1 nx2 nx3 nghost,
       ∀ n3 n2 n1, r.dims = Dims.d3 n3 n2 n1 →
         n3 = nx3 + 2*nghost ∧ n2 = nx2 + 2*nghost ∧ n1 = nx1 + 2*nghost) ∧
    (∀ e, integrate_init_3d mhd hcorr sb hasSrc nx1 nx2 nx3 nghost oracle
        = .error e → e.1 = fatalMsg ∧ e.2 = []) ∧
    (∀ l, integrate_init_3d mhd hcorr sb hasSrc nx1 nx2 nx3 nghost oracle
        = .ok l →
       ∀ m, m < (allocPlan mhd hcorr sb hasSrc nx1 nx2 nx3 nghost).length →
         oracle m = true) := by
  refine ⟨?_, ?_, ?_⟩
  · cases mhd <;> cases hcorr <;> cases sb <;> cases hasSrc <;>
    · intro r hr
      simp only [allocPlan, if_true, if_false, List.cons_append,
        List.nil_append, List.append_nil] at hr
      fin_cases hr
      all_goals intro n3 n2 n1 h
      all_goals cases h
      all_goals exact ⟨rfl, rfl, rfl⟩
  · intro e h
    exact runAllocs_error oracle _ _ 0 [] e (by simp)
      (allocPlan_names_freed mhd hcorr sb hasSrc nx1 nx2 nx3 nghost) h
  · intro l h m hm
    simpa using runAllocs_ok oracle _ _ 0 [] l h m hm

/-- C9 counterexample to the claim as stated: two different failing
allocations (the first and the second request, i.e. `emf1` and `emf2`)
abort with the *identical* diagnostic `fatalMsg`, so the message does not
identify which allocation failed. -/
theorem C9_counterexample_message_not_identifying :
    integrate_init_3d true true true true 2 2 2 2 (fun n => decide (n ≠ 0))
      = .error (fatalMsg, []) ∧
    integrate_init_3d true true true true 2 2 2 2 (fun n => decide (n ≠ 1))
      = .error (fatalMsg, []) ∧
    ((allocPlan true true true true 2 2 2 2).map AllocRec.name).take 2
      = [ArrName.emf1A, ArrName.emf2A] ∧
    ArrName.emf1A ≠ ArrName.emf2A := by
  refine ⟨?_, ?_, by decide, by decide⟩ <;> rfl

/-- Witness for C9 (amended), applying the theorem at a failing oracle and
at the first 3D allocation of a concrete configuration. -/
theorem C9_init_alloc_witness :
    (6 = 2 + 2*2 ∧ 6 = 2 + 2*2 ∧ 6 = 2 + 2*2) ∧
    (fatalMsg = fatalMsg ∧ ([] : List AllocRec) = []) :=
  ⟨(C9_init_alloc_sizes_and_fatal_cleanup true true true true 2 2 2 2
      (fun n => decide (n ≠ 0))).1 ⟨.emf1A, .d3 6 6 6⟩ (by decide) 6 6 6 rfl,
   (C9_init_alloc_sizes_and_fatal_cleanup true true true true 2 2 2 2
      (fun n => decide (n ≠ 0))).2.1 (fatalMsg, []) (by rfl)⟩

end AthenaCTU
